import Mathlib

/-!
Shallow embedding of the insyte query safety and planning engine
(src-tauri/src/data/{query,planner,safety,sampling}.rs) and proofs about it.

Modelling conventions:
* Machine numerics (i64/f64) are embedded as `Int`/`ℚ`; overflow is immaterial
  at the sizes the claims quantify over and is noted where the source could wrap.
* Polars `DataFrame`s are embedded row-major as `DFrame` (column names, column
  dtypes, rows of cells).  The dtype fragment covers string, numeric, boolean
  and date columns; all polars numeric widths collapse to `ℚ`.
* Polars lazy pipelines are composed eagerly; errors that polars raises at
  `collect` time are raised at the corresponding pipeline step, which is
  observationally equivalent because every source pipeline is collected before
  being returned.
* The `f64::ln` used by the cardinality extrapolation branch (only reachable
  for datasets of more than 10,000 rows) is an explicit function parameter
  `lnApprox` of the embedded estimators; no claim depends on its value and all
  theorems quantify over it.
* Where polars leaves an order unspecified (`unique`, `group_by` output order,
  unstable `sort`), the embedding fixes the deterministic choice of
  first-occurrence order / stable insertion sort.
* Rust panics (integer division by zero, subtraction overflow) are modelled
  explicitly (`TableOutcome.panic`); Lean's total `Nat` arithmetic would
  otherwise silently differ from Rust.
-/

deriving instance DecidableEq for Except

namespace Insyte

/-- A single value in a dataset column.  `num` collapses all polars integer and
float widths to `ℚ`; `date` is a civil date (polars `Date`). -/
inductive Cell where
  | str (s : String)
  | bool (b : Bool)
  | num (q : ℚ)
  | date (y : ℤ) (m d : ℕ)
  | null
  deriving DecidableEq, Repr

/-- Column dtype, mirroring the polars dtype groups the source dispatches on:
all integer/float dtypes are `tNum`, `Date`/`Datetime`/`Time` are `tDate`. -/
inductive DType where
  | tStr
  | tNum
  | tBool
  | tDate
  deriving DecidableEq, Repr

/-- A `serde_json::Value` as carried by `FilterSpec.value`; `f`/`i` mirror the
`is_f64`/`is_i64` distinction of the source. -/
inductive JsonVal where
  | s (v : String)
  | f (v : ℚ)
  | i (v : ℤ)
  | b (v : Bool)
  | null
  deriving DecidableEq, Repr

/-- `crate::ai::types::FilterOperator`. -/
inductive FilterOperator where
  | eq
  | neq
  | gt
  | lt
  | gte
  | lte
  | contains
  | startsWith
  | endsWith
  | isNull
  | isNotNull
  deriving DecidableEq, Repr

/-- `crate::ai::types::FilterSpec`. -/
structure FilterSpec where
  column : String
  operator : FilterOperator
  value : JsonVal
  deriving DecidableEq, Repr

/-- `crate::ai::types::ChartType`. -/
inductive ChartType where
  | bar
  | line
  | area
  | pie
  | scatter
  deriving DecidableEq, Repr

/-- `crate::ai::types::AggregationType`. -/
inductive AggregationType where
  | sum
  | avg
  | count
  | min
  | max
  | median
  deriving DecidableEq, Repr

/-- `crate::ai::types::SortField`. -/
inductive SortField where
  | x
  | y
  | none
  deriving DecidableEq, Repr

/-- `crate::ai::types::SortOrder`. -/
inductive SortOrder where
  | asc
  | desc
  | none
  deriving DecidableEq, Repr

/-- `crate::data::safety::DateBinGranularity`. -/
inductive DateBinGranularity where
  | year
  | quarter
  | month
  | week
  | day
  | hour
  deriving DecidableEq, Repr

/-- `crate::ai::types::VisualizationSpec` (the date-binning hints and the
opaque chart config are carried but never read by the embedded fragment,
matching the source pipeline). -/
structure VisualizationSpec where
  chartType : ChartType
  xField : String
  yField : String
  aggregation : AggregationType
  groupBy : Option String
  sortBy : SortField
  sortOrder : SortOrder
  title : String
  filters : List FilterSpec
  deriving DecidableEq, Repr

/-- `crate::error::DataError`, restricted to the variants the embedded
fragment produces. -/
inductive DataError where
  | parseError (msg : String)
  | columnNotFound (column : String) (available : String)
  | noData
  deriving DecidableEq, Repr

/-- A polars `DataFrame`, row-major.  `dtypes` is parallel to `cols`. -/
structure DFrame where
  cols : List String
  dtypes : List DType
  rows : List (List Cell)
  deriving DecidableEq, Repr

namespace DFrame

/-- `DataFrame::height`. -/
def height (d : DFrame) : ℕ := d.rows.length

/-- `DataFrame::width`. -/
def width (d : DFrame) : ℕ := d.cols.length

/-- Position of a named column, `none` when absent. -/
def colIdx (d : DFrame) (name : String) : Option ℕ :=
  d.cols.findIdx? (· == name)

end DFrame

/-- Cell of a row at a column position (out-of-range reads never happen on
well-formed frames; they default to `null`). -/
def getCell (row : List Cell) (i : ℕ) : Cell := row.getD i Cell.null

/-- All cells of column `i`. -/
def colCells (d : DFrame) (i : ℕ) : List Cell := d.rows.map (fun r => getCell r i)

/-- dtype of column `i` (well-formed frames always have one). -/
def colDType (d : DFrame) (i : ℕ) : DType := d.dtypes.getD i DType.tStr

/-- First-occurrence deduplication; the embedding's deterministic choice for
polars `unique`/`n_unique` (whose output order is unspecified).  Note polars
`n_unique` counts a present null as one distinct value, as this does. -/
def firstOccur (cells : List Cell) : List Cell :=
  cells.foldl (fun acc c => if c ∈ acc then acc else acc ++ [c]) []

/-- The comma-separated available-column list used in column-not-found
errors. -/
def joinCols (d : DFrame) : String := String.intercalate ", " d.cols

/-- `format_number` (identical helper in query.rs, planner.rs, safety.rs):
thousands separators. -/
def formatNumber (n : ℕ) : String :=
  let s := toString n
  let cs := s.toList.reverse
  let rec go : List Char → ℕ → List Char
    | [], _ => []
    | c :: rest, i =>
      if i > 0 && i % 3 == 0 then c :: ',' :: go rest (i + 1)
      else c :: go rest (i + 1)
  String.mk ((go cs 0).reverse)

/-- Round-half-even of `q` to one decimal digit, rendered as Rust `{:.1}`
formatting renders it (the source formats an `f64`; on the claim-relevant
inputs the two agree). -/
def fmtQ1 (q : ℚ) : String :=
  let scaled : ℚ := q * 10
  let fl : ℤ := ⌊scaled⌋
  let frac : ℚ := scaled - fl
  let r : ℤ :=
    if frac < 1/2 then fl
    else if 1/2 < frac then fl + 1
    else if fl % 2 = 0 then fl else fl + 1
  toString (r / 10) ++ "." ++ toString (r % 10).natAbs

/-- Substring containment (the source's `str().contains(pat, false)` treats
the pattern as a regex; on literal patterns, which is all the fragment
models, this coincides). -/
def strContains (s pat : String) : Bool :=
  pat == "" || (s.splitOn pat).length ≥ 2

/-- Stable insertion of `a` in front of the first element it is `le` to. -/
def orderedInsertB {α : Type} (le : α → α → Bool) (a : α) : List α → List α
  | [] => [a]
  | b :: l => if le a b then a :: b :: l else b :: orderedInsertB le a l

/-- Stable structural sort; the embedding's stand-in for polars `sort`
(which leaves ties unspecified). -/
def insertionSortB {α : Type} (le : α → α → Bool) : List α → List α
  | [] => []
  | a :: l => orderedInsertB le a (insertionSortB le l)

/-! ## query.rs: safe filter application -/

/-- Keep the rows whose cell in column `i` satisfies `p`. -/
def filterByPred (d : DFrame) (i : ℕ) (p : Cell → Bool) : DFrame :=
  { d with rows := d.rows.filter (fun r => p (getCell r i)) }

/-- Numeric comparison of a cell against a numeric literal; `none` for a null
(or non-numeric) cell, which a polars filter drops. -/
def cellCmpNum (c : Cell) (q : ℚ) (p : ℚ → ℚ → Bool) : Bool :=
  match c with
  | .num v => p v q
  | _ => false

/-- `query.rs::apply_filter`: one filter pushed onto the lazy frame.  dtype
mismatches that polars raises at `collect` are raised here. -/
def applyFilterQ (d : DFrame) (f : FilterSpec) : Except DataError DFrame := do
  match d.colIdx f.column with
  | none => throw (.parseError ("unable to find column " ++ f.column))
  | some i =>
    let dt := colDType d i
    match f.operator with
    | .eq =>
      match f.value with
      | .s v =>
        if dt == .tStr then pure (filterByPred d i (fun c => c == .str v))
        else throw (.parseError "cannot compare string with column dtype")
      | .f q =>
        if dt == .tNum then pure (filterByPred d i (fun c => cellCmpNum c q (· == ·)))
        else throw (.parseError "cannot compare numeric with column dtype")
      | .i n =>
        if dt == .tNum then pure (filterByPred d i (fun c => cellCmpNum c (n : ℚ) (· == ·)))
        else throw (.parseError "cannot compare numeric with column dtype")
      | .b v =>
        if dt == .tBool then pure (filterByPred d i (fun c => c == .bool v))
        else throw (.parseError "cannot compare boolean with column dtype")
      | .null => throw (.parseError "Unsupported filter value type")
    | .neq =>
      match f.value with
      | .s v =>
        if dt == .tStr then pure (filterByPred d i (fun c => match c with | .str w => w != v | _ => false))
        else throw (.parseError "cannot compare string with column dtype")
      | .f q =>
        if dt == .tNum then pure (filterByPred d i (fun c => cellCmpNum c q (· != ·)))
        else throw (.parseError "cannot compare numeric with column dtype")
      | .i n =>
        if dt == .tNum then pure (filterByPred d i (fun c => cellCmpNum c (n : ℚ) (· != ·)))
        else throw (.parseError "cannot compare numeric with column dtype")
      | _ => throw (.parseError "Unsupported filter value type")
    | .gt =>
      match f.value with
      | .f q =>
        if dt == .tNum then pure (filterByPred d i (fun c => cellCmpNum c q (· > ·)))
        else throw (.parseError "cannot compare numeric with column dtype")
      | .i n =>
        if dt == .tNum then pure (filterByPred d i (fun c => cellCmpNum c (n : ℚ) (· > ·)))
        else throw (.parseError "cannot compare numeric with column dtype")
      | _ => throw (.parseError "GT filter requires numeric value")
    | .lt =>
      match f.value with
      | .f q =>
        if dt == .tNum then pure (filterByPred d i (fun c => cellCmpNum c q (· < ·)))
        else throw (.parseError "cannot compare numeric with column dtype")
      | .i n =>
        if dt == .tNum then pure (filterByPred d i (fun c => cellCmpNum c (n : ℚ) (· < ·)))
        else throw (.parseError "cannot compare numeric with column dtype")
      | _ => throw (.parseError "LT filter requires numeric value")
    | .gte =>
      match f.value with
      | .f q =>
        if dt == .tNum then pure (filterByPred d i (fun c => cellCmpNum c q (· ≥ ·)))
        else throw (.parseError "cannot compare numeric with column dtype")
      | .i n =>
        if dt == .tNum then pure (filterByPred d i (fun c => cellCmpNum c (n : ℚ) (· ≥ ·)))
        else throw (.parseError "cannot compare numeric with column dtype")
      | _ => throw (.parseError "GTE filter requires numeric value")
    | .lte =>
      match f.value with
      | .f q =>
        if dt == .tNum then pure (filterByPred d i (fun c => cellCmpNum c q (· ≤ ·)))
        else throw (.parseError "cannot compare numeric with column dtype")
      | .i n =>
        if dt == .tNum then pure (filterByPred d i (fun c => cellCmpNum c (n : ℚ) (· ≤ ·)))
        else throw (.parseError "cannot compare numeric with column dtype")
      | _ => throw (.parseError "LTE filter requires numeric value")
    | .contains =>
      let pattern := match f.value with | .s v => v | _ => ""
      if dt == .tStr then
        pure (filterByPred d i (fun c => match c with | .str w => strContains w pattern | _ => false))
      else throw (.parseError "string operation on non-string column")
    | .startsWith =>
      let pattern := match f.value with | .s v => v | _ => ""
      if dt == .tStr then
        pure (filterByPred d i (fun c => match c with | .str w => w.startsWith pattern | _ => false))
      else throw (.parseError "string operation on non-string column")
    | .endsWith =>
      let pattern := match f.value with | .s v => v | _ => ""
      if dt == .tStr then
        pure (filterByPred d i (fun c => match c with | .str w => w.endsWith pattern | _ => false))
      else throw (.parseError "string operation on non-string column")
    | .isNull => pure (filterByPred d i (fun c => c == .null))
    | .isNotNull => pure (filterByPred d i (fun c => c != .null))

/-! ## query.rs / planner.rs: aggregation (the two files contain textually
identical `apply_aggregation` functions; one embedding serves both) -/

/-- The numeric contents of a list of cells, skipping nulls; errors on a
string or boolean cell, as polars numeric aggregations do. -/
def qList : List Cell → Except DataError (List ℚ)
  | [] => pure []
  | Cell.null :: rest => qList rest
  | Cell.num q :: rest => do pure (q :: (← qList rest))
  | _ => throw (.parseError "invalid operation on column dtype")

/-- Aggregated value of one group's measure cells. -/
def aggValue (agg : AggregationType) (cs : List Cell) : Except DataError Cell :=
  let nn := cs.filter (fun c => c != Cell.null)
  match agg with
  | .count => pure (.num (nn.length : ℚ))
  | .sum => do pure (.num (← qList nn).sum)
  | .avg => do
    let qs ← qList nn
    pure (if qs.isEmpty then .null else .num (qs.sum / (qs.length : ℚ)))
  | .min =>
    match qList nn with
    | .ok qs =>
      pure (match qs.min? with | some m => .num m | none => .null)
    | .error _ =>
      -- polars also orders strings; `min` on a string column is lexicographic
      match nn.mapM (fun c => match c with | Cell.str s => some s | _ => none) with
      | some ss => pure (match ss.min? with | some m => .str m | none => .null)
      | none => throw (.parseError "invalid operation on column dtype")
  | .max =>
    match qList nn with
    | .ok qs =>
      pure (match qs.max? with | some m => .num m | none => .null)
    | .error _ =>
      match nn.mapM (fun c => match c with | Cell.str s => some s | _ => none) with
      | some ss => pure (match ss.max? with | some m => .str m | none => .null)
      | none => throw (.parseError "invalid operation on column dtype")
  | .median => do
    let qs ← qList nn
    let sorted := insertionSortB (fun a b => decide (a ≤ b)) qs
    let k := sorted.length
    if k == 0 then pure .null
    else if k % 2 == 1 then pure (.num (sorted.getD (k / 2) 0))
    else pure (.num ((sorted.getD (k / 2 - 1) 0 + sorted.getD (k / 2) 0) / 2))

/-- Result dtype of the aggregated `"value"` column. -/
def aggDType (agg : AggregationType) (measureDType : DType) : DType :=
  match agg with
  | .min | .max => measureDType
  | _ => .tNum

/-- `apply_aggregation`: `df.group_by([col(x)]).agg([<agg>(col(y)).alias("value")])`.
Group output order, unspecified by polars, is fixed to first occurrence. -/
def applyAggregation (d : DFrame) (xField yField : String) (agg : AggregationType) :
    Except DataError DFrame := do
  match d.colIdx xField, d.colIdx yField with
  | none, _ => throw (.parseError ("unable to find column " ++ xField))
  | _, none => throw (.parseError ("unable to find column " ++ yField))
  | some xi, some yi =>
    if xField == "value" then
      -- the aggregate alias collides with the group column name
      throw (.parseError "duplicate column name value")
    else
      let keys := firstOccur (colCells d xi)
      let rows ← keys.mapM (fun k => do
        let ys := (d.rows.filter (fun r => getCell r xi == k)).map (fun r => getCell r yi)
        let v ← aggValue agg ys
        pure [k, v])
      pure ⟨[xField, "value"], [colDType d xi, aggDType agg (colDType d yi)], rows⟩

/-! ## sorting -/

/-- A total comparison on cells standing in for polars' per-dtype orders
(well-formed frames only ever sort within one dtype). -/
def cellLE (a b : Cell) : Bool :=
  let rank : Cell → ℕ
    | .null => 0
    | .bool _ => 1
    | .num _ => 2
    | .date _ _ _ => 3
    | .str _ => 4
  match a, b with
  | .bool x, .bool y => !x || y
  | .num x, .num y => decide (x ≤ y)
  | .str x, .str y => decide (x ≤ y)
  | .date y₁ m₁ d₁, .date y₂ m₂ d₂ =>
    decide (y₁ < y₂ ∨ (y₁ = y₂ ∧ (m₁ < m₂ ∨ (m₁ = m₂ ∧ d₁ ≤ d₂))))
  | x, y => rank x ≤ rank y

/-- Sort rows by column `i` (stable; polars' sort leaves ties unspecified). -/
def sortRows (rows : List (List Cell)) (i : ℕ) (descending : Bool) : List (List Cell) :=
  insertionSortB (fun r s =>
    if descending then cellLE (getCell s i) (getCell r i)
    else cellLE (getCell r i) (getCell s i)) rows

/-- `df.sort([name], descending)`; missing columns error (at `collect` in the
source). -/
def sortByCol (d : DFrame) (name : String) (descending : Bool) : Except DataError DFrame :=
  match d.colIdx name with
  | none => throw (.parseError ("unable to find column " ++ name))
  | some i => pure { d with rows := sortRows d.rows i descending }

/-- `query.rs::apply_sorting`. -/
def applySorting (d : DFrame) (xField : String) (sortBy : SortField) (sortOrder : SortOrder) :
    Except DataError DFrame :=
  let descending := sortOrder == .desc
  match sortBy with
  | .x => sortByCol d xField descending
  | .y => sortByCol d "value" descending
  | .none => pure d

/-! ## query.rs: Top-N with Others bucket -/

/-- `column("value").sum::<f64>()`: sum of the numeric cells, nulls counting
zero; errors on a non-numeric column. -/
def cellSumQ : List Cell → Except DataError ℚ
  | [] => pure 0
  | Cell.null :: rest => cellSumQ rest
  | Cell.num q :: rest => do pure (q + (← cellSumQ rest))
  | _ => throw (.parseError "invalid operation on column dtype")

/-- Numeric reading of a cell, zero for null (specification-side view of the
sums `cellSumQ` computes). -/
def cellQD : Cell → ℚ
  | .num q => q
  | _ => 0

/-- Sum of the numeric readings of column `vi` over a row list. -/
def rowsValueSum (rows : List (List Cell)) (vi : ℕ) : ℚ :=
  (rows.map (fun r => cellQD (getCell r vi))).sum

/-- `query.rs::apply_top_n_with_others`.  Returns the reduced frame and
whether an Others row was appended. -/
def applyTopNWithOthers (d : DFrame) (n : ℕ) (xField : String) (includeOthers : Bool) :
    Except DataError (DFrame × Bool) := do
  let totalGroups := d.height
  if totalGroups ≤ n then
    pure (d, false)
  else
    match d.colIdx "value" with
    | none => throw (.parseError ("unable to find column value"))
    | some vi =>
      let sorted := { d with rows := sortRows d.rows vi true }
      if includeOthers then  -- `include_others && total_groups > n`; the second conjunct holds here
        let topNRows := sorted.rows.take n
        let topNSum ← cellSumQ (topNRows.map (fun r => getCell r vi))
        let totalSum ← cellSumQ (sorted.rows.map (fun r => getCell r vi))
        let othersSum := totalSum - topNSum
        if 0 < othersSum then
          if xField == "value" then
            -- `df!` with two identically named columns
            throw (.parseError "duplicate column name value")
          else if d.cols ≠ [xField, "value"] ∨ d.dtypes ≠ [DType.tStr, DType.tNum] then
            -- `vstack` requires the receiving frame to match the Others row's
            -- schema in names AND dtypes: the Others row is a Utf8 label with
            -- a Float64 value, so a non-string x column (or a non-numeric
            -- value column) errors here in the source.  The embedding's
            -- single numeric dtype stands for Float64.
            throw (.parseError "cannot vstack: schemas differ")
          else
            pure ({ d with rows := topNRows ++ [[Cell.str "Others", Cell.num othersSum]] }, true)
        else
          pure ({ d with rows := topNRows }, false)
      else
        pure ({ d with rows := sorted.rows.take n }, false)

/-! ## query.rs: chart data extraction -/

/-- Cast of a cell to its string rendering (polars `cast(String)`; a null
reads back as the empty string through `unwrap_or("")`).  The exact numeral
formatting is immaterial to every claim. -/
def cellToString : Cell → String
  | .str s => s
  | .bool b => if b then "true" else "false"
  | .num q => if q.den == 1 then toString q.num else toString q
  | .date y m d => toString y ++ "-" ++ toString m ++ "-" ++ toString d
  | .null => ""

/-- `query.rs::extract_chart_data`: labels from the x column, values from the
`"value"` column cast to `f64` with nulls (and unparseable cells) dropped by
`into_no_null_iter`. -/
def extractChartData (d : DFrame) (xField : String) : Except DataError (List String × List ℚ) := do
  match d.colIdx xField, d.colIdx "value" with
  | none, _ => throw (.parseError ("unable to find column " ++ xField))
  | _, none => throw (.parseError ("unable to find column value"))
  | some xi, some vi =>
    let labels := d.rows.map (fun r => cellToString (getCell r xi))
    let data := d.rows.filterMap (fun r =>
      match getCell r vi with | Cell.num q => some q | _ => none)
    pure (labels, data)

/-! ## query.rs: cardinality estimation and chart limits -/

/-- natural-number ceiling of a rational (`.ceil() as usize`, which also
saturates negatives at zero).  Written via `Rat.floor` so that it evaluates
inside the kernel. -/
def qCeilNat (q : ℚ) : ℕ := (-(Rat.floor (-q))).toNat

/-- `query.rs::estimate_cardinality`.  `lnApprox` stands for `f64::ln`,
reached only when `total > 10_000`. -/
def estimateCardinality (lnApprox : ℚ → ℚ) (cells : List Cell) (total : ℕ) : ℕ :=
  if total ≤ 10000 then (firstOccur cells).length
  else
    let sampleSize := min 10000 total
    let sampled := cells.take sampleSize
    let sampleUnique := (firstOccur sampled).length
    qCeilNat ((sampleUnique : ℚ) * max (lnApprox ((total : ℚ) / (sampleSize : ℚ))) 1)

/-- `MAX_VISUAL_POINTS` (safety.rs). -/
def MAX_VISUAL_POINTS : ℕ := 50000

/-- `BAR_LINE_MAX_POINTS` (query.rs). -/
def BAR_LINE_MAX_POINTS : ℕ := 500

/-- `PIE_MAX_POINTS` (query.rs). -/
def PIE_MAX_POINTS : ℕ := 20

/-- `SCATTER_MAX_POINTS` (query.rs). -/
def SCATTER_MAX_POINTS : ℕ := 10000

/-- `format!("{:?}", chart_type).to_lowercase()`. -/
def chartTypeStr : ChartType → String
  | .bar => "bar"
  | .line => "line"
  | .area => "area"
  | .pie => "pie"
  | .scatter => "scatter"

/-- `query.rs::get_max_points_for_chart`. -/
def getMaxPointsForChart (chartType : String) : ℕ :=
  if chartType == "bar" || chartType == "line" || chartType == "area" then BAR_LINE_MAX_POINTS
  else if chartType == "pie" then PIE_MAX_POINTS
  else if chartType == "scatter" then SCATTER_MAX_POINTS
  else BAR_LINE_MAX_POINTS

/-! ## query.rs: response shapes -/

/-- `query.rs::ChartDataset`. -/
structure ChartDataset where
  label : String
  data : List ℚ
  color : Option String
  deriving DecidableEq, Repr

/-- `query.rs::ChartMetadata`. -/
structure ChartMetadata where
  title : String
  xLabel : String
  yLabel : String
  totalRecords : ℕ
  reduced : Bool
  reductionReasonStr : String
  originalRowEstimate : ℕ
  returnedPoints : ℕ
  sampleFraction : Option ℚ
  topNValue : Option ℕ
  warningMessage : Option String
  deriving DecidableEq, Repr

/-- `query.rs::ChartData`. -/
structure ChartData where
  labels : List String
  datasets : List ChartDataset
  metadata : ChartMetadata
  deriving DecidableEq, Repr

/-- The aggregation label of step 12 of `execute_visualization_query`. -/
def aggLabel (agg : AggregationType) (yField : String) : String :=
  match agg with
  | .sum => "Sum of " ++ yField
  | .avg => "Average of " ++ yField
  | .count => "Count of " ++ yField
  | .min => "Min of " ++ yField
  | .max => "Max of " ++ yField
  | .median => "Median of " ++ yField

/-! ## query.rs: execute_visualization_query -/

/-- `query.rs::execute_visualization_query`.  The mutex-guarded dataset store
is elided: the active `DataFrame` is passed directly. -/
def executeVisualizationQuery (lnApprox : ℚ → ℚ) (spec : VisualizationSpec) (df : DFrame) :
    Except DataError ChartData := do
  let totalRecords := df.height
  -- STEP 2: validate columns exist
  match df.colIdx spec.xField, df.colIdx spec.yField with
  | none, _ => throw (.columnNotFound spec.xField (joinCols df))
  | _, none => throw (.columnNotFound spec.yField (joinCols df))
  | some xi, some _yi =>
    -- STEP 3: analyze cardinality (computed, then unused, exactly as in the source)
    let _xCardinality := estimateCardinality lnApprox (colCells df xi) totalRecords
    -- STEP 4: chart-specific limits
    let maxPoints := getMaxPointsForChart (chartTypeStr spec.chartType)
    -- STEP 5: filters first, then mandatory aggregation
    let filtered ← spec.filters.foldlM applyFilterQ df
    let aggDf ← applyAggregation filtered spec.xField spec.yField spec.aggregation
    -- STEP 6: post-aggregation cardinality
    let aggregatedCount := aggDf.height
    -- STEP 7: Top-N when over the limit
    let (finalDf, reduced, reductionReasonStr, topNValue, warningMessage) ←
      if aggregatedCount > maxPoints then do
        let (topDf, hasOthers) ← applyTopNWithOthers aggDf maxPoints spec.xField true
        pure (topDf, true, "top-n", some maxPoints,
          some ("Showing top " ++ toString maxPoints ++ " of " ++ formatNumber aggregatedCount
            ++ " categories" ++ (if hasOthers then " (others grouped)" else "")))
      else if aggregatedCount < totalRecords then
        pure (aggDf, true, "auto-aggregation", (none : Option ℕ),
          some ("Data aggregated from " ++ formatNumber totalRecords ++ " rows to "
            ++ formatNumber aggregatedCount ++ " groups"))
      else
        pure (aggDf, false, "none", none, none)
    -- STEP 8: sorting
    let sortedDf ← applySorting finalDf spec.xField spec.sortBy spec.sortOrder
    -- STEP 9: absolute final safety limit
    let limitedDf : DFrame := { sortedDf with rows := sortedDf.rows.take MAX_VISUAL_POINTS }
    -- STEP 10/11: collect and extract
    let returnedPoints := limitedDf.height
    let (labels, data) ← extractChartData limitedDf spec.xField
    let label := aggLabel spec.aggregation spec.yField
    pure {
      labels := labels
      datasets := [{ label := label, data := data, color := none }]
      metadata := {
        title := spec.title
        xLabel := spec.xField
        yLabel := label
        totalRecords := totalRecords
        reduced := reduced
        reductionReasonStr := reductionReasonStr
        originalRowEstimate := totalRecords
        returnedPoints := returnedPoints
        sampleFraction := none  -- declared mutable in the source, never assigned on this path
        topNValue := topNValue
        warningMessage := warningMessage } }

/-! ## query.rs: execute_table_query -/

/-- `query.rs::TableData`.  Rows keep their cells; the source's
`df_to_rows` JSON conversion is injective on the embedded cell types. -/
structure TableData where
  rows : List (List Cell)
  totalRows : ℕ
  page : ℕ
  pageSize : ℕ
  totalPages : ℕ
  warning : Option String
  deriving DecidableEq, Repr

/-- Outcome of a Rust function that may also panic. -/
inductive TableOutcome where
  | panic
  | err (e : DataError)
  | ok (t : TableData)
  deriving DecidableEq, Repr

/-- Column selection of the table query: requested names against the frame's
columns, erroring on a missing name. -/
def selectColumns (colNames : List String) (rows : List (List Cell)) (wanted : List String) :
    Except DataError (List (List Cell)) := do
  let idxs ← wanted.mapM (fun w =>
    match colNames.findIdx? (· == w) with
    | some i => pure i
    | none => throw (DataError.parseError ("unable to find column " ++ w)))
  pure (rows.map (fun r => idxs.map (fun i => getCell r i)))

/-- `query.rs::execute_table_query`.  The `total_pages` field is
`(total_filtered + safe_page_size - 1) / safe_page_size` on `usize`; when
`safe_page_size = 0` the Rust division panics, which the embedding makes
explicit (Lean's `Nat` division would silently return 0). -/
def executeTableQuery (columns : List String) (page pageSize : ℕ) (sortColumn : Option String)
    (sortDesc : Bool) (filters : List FilterSpec) (df : DFrame) : TableOutcome :=
  let totalRecords := df.height
  -- SAFETY: cap page size at 1000 rows
  let safePageSize := min pageSize 1000
  match filters.foldlM applyFilterQ df with
  | .error e => .err e
  | .ok fdf =>
    match (match sortColumn with
           | some c => sortByCol fdf c sortDesc
           | none => Except.ok fdf) with
    | .error e => .err e
    | .ok sdf =>
      let totalFiltered := sdf.height
      let offset := page * safePageSize
      let paginated := (sdf.rows.drop offset).take safePageSize
      match (if columns.isEmpty then Except.ok paginated
             else selectColumns sdf.cols paginated columns) with
      | .error e => .err e
      | .ok selected =>
        if safePageSize == 0 then
          .panic  -- divide-by-zero computing `total_pages`
        else
          .ok {
            rows := selected
            totalRows := totalFiltered
            page := page
            pageSize := safePageSize
            totalPages := (totalFiltered + safePageSize - 1) / safePageSize
            warning :=
              if totalRecords > 100000 then
                some ("Large dataset (" ++ formatNumber totalRecords
                  ++ " rows). Using pagination for performance.")
              else none }

/-! ## safety.rs: ZoomContext and query.rs: execute_progressive_query -/

/-- `safety.rs::ZoomContext`. -/
structure ZoomContext where
  zoomLevel : ℚ
  rangeStart : Option ℚ
  rangeEnd : Option ℚ
  selectedCategories : Option (List String)
  deriving DecidableEq, Repr

namespace ZoomContext

/-- `ZoomContext::calculate_point_limit`:
`((base_limit as f64) * (0.2 + 0.8 * zoom_level)).ceil() as usize`. -/
def calculatePointLimit (z : ZoomContext) (baseLimit : ℕ) : ℕ :=
  let minRatio : ℚ := 2/10
  let ratio := minRatio + (1 - minRatio) * z.zoomLevel
  qCeilNat ((baseLimit : ℚ) * ratio)

/-- `ZoomContext::default_view`. -/
def defaultView : ZoomContext :=
  { zoomLevel := 0, rangeStart := none, rangeEnd := none, selectedCategories := none }

end ZoomContext

/-- `query.rs::execute_progressive_query`.  Note the source computes
`point_limit` from the zoom context and then never uses it; the embedding
preserves the unused binding. -/
def executeProgressiveQuery (lnApprox : ℚ → ℚ) (spec : VisualizationSpec) (zoomLevel : ℚ)
    (rangeStart rangeEnd : Option ℚ) (df : DFrame) : Except DataError ChartData :=
  let zoom : ZoomContext :=
    { zoomLevel := max 0 (min 1 zoomLevel)
      rangeStart := rangeStart
      rangeEnd := rangeEnd
      selectedCategories := none }
  let baseMaxPoints := getMaxPointsForChart (chartTypeStr spec.chartType)
  let _pointLimit := zoom.calculatePointLimit baseMaxPoints  -- computed but never applied (as in the source)
  let modifiedSpec :=
    match rangeStart, rangeEnd with
    | some s, some e =>
      { spec with filters := spec.filters
          ++ [{ column := spec.xField, operator := .gte, value := .f s },
              { column := spec.xField, operator := .lte, value := .f e }] }
    | _, _ => spec
  executeVisualizationQuery lnApprox modifiedSpec df

/-! ## safety.rs: constants, reduction metadata -/

/-- `DEFAULT_BAR_LINE_LIMIT`. -/
def DEFAULT_BAR_LINE_LIMIT : ℕ := 500

/-- `DEFAULT_SCATTER_LIMIT`. -/
def DEFAULT_SCATTER_LIMIT : ℕ := 10000

/-- `DEFAULT_TABLE_PAGE_SIZE`. -/
def DEFAULT_TABLE_PAGE_SIZE : ℕ := 100

/-- `HIGH_CARDINALITY_THRESHOLD`. -/
def HIGH_CARDINALITY_THRESHOLD : ℕ := 1000

/-- `DEFAULT_TOP_N`. -/
def DEFAULT_TOP_N : ℕ := 20

/-- `SAMPLING_SEED`. -/
def SAMPLING_SEED : ℕ := 42

/-- `ESTIMATED_BYTES_PER_ROW`. -/
def ESTIMATED_BYTES_PER_ROW : ℕ := 256

/-- `MAX_MEMORY_BUDGET` (100 MB). -/
def MAX_MEMORY_BUDGET : ℕ := 100 * 1024 * 1024

/-- `safety.rs::ReductionReason`. -/
inductive ReductionReason where
  | autoAggregation
  | sampling
  | topN
  | dateBinning
  | combined
  | none
  deriving DecidableEq, Repr

/-- `safety.rs::ReductionStep`. -/
structure ReductionStep where
  stepType : ReductionReason
  inputRows : ℕ
  outputRows : ℕ
  description : String
  deriving DecidableEq, Repr

/-- `safety.rs::ReductionMetadata`. -/
structure ReductionMetadata where
  reduced : Bool
  reductionReason : ReductionReason
  originalRowEstimate : ℕ
  returnedPoints : ℕ
  sampleFraction : Option ℚ
  topNValue : Option ℕ
  dateBinGranularity : Option DateBinGranularity
  distributionPreserved : Bool
  warningMessage : Option String
  reductionSteps : List ReductionStep
  deriving DecidableEq, Repr

namespace ReductionMetadata

/-- `ReductionMetadata::no_reduction`. -/
def noReduction (rowCount : ℕ) : ReductionMetadata :=
  { reduced := false
    reductionReason := .none
    originalRowEstimate := rowCount
    returnedPoints := rowCount
    sampleFraction := none
    topNValue := none
    dateBinGranularity := none
    distributionPreserved := true
    warningMessage := none
    reductionSteps := [] }

/-- `ReductionMetadata::aggregated`. -/
def aggregated (original returned : ℕ) : ReductionMetadata :=
  { reduced := true
    reductionReason := .autoAggregation
    originalRowEstimate := original
    returnedPoints := returned
    sampleFraction := none
    topNValue := none
    dateBinGranularity := none
    distributionPreserved := true
    warningMessage := some ("Data was automatically aggregated from "
      ++ formatNumber original ++ " to " ++ formatNumber returned ++ " groups")
    reductionSteps := [⟨.autoAggregation, original, returned, "Auto-aggregation applied"⟩] }

/-- `ReductionMetadata::sampled`. -/
def sampled (original returned : ℕ) (ratio : ℚ) : ReductionMetadata :=
  { reduced := true
    reductionReason := .sampling
    originalRowEstimate := original
    returnedPoints := returned
    sampleFraction := some ratio
    topNValue := none
    dateBinGranularity := none
    distributionPreserved := true
    warningMessage := some ("Showing " ++ fmtQ1 (ratio * 100) ++ "% sample ("
      ++ formatNumber returned ++ " of " ++ formatNumber original ++ " rows) for performance")
    reductionSteps :=
      [⟨.sampling, original, returned,
        "Deterministic sampling at " ++ fmtQ1 (ratio * 100) ++ "% ratio"⟩] }

/-- `ReductionMetadata::add_step`. -/
def addStep (m : ReductionMetadata) (step : ReductionStep) : ReductionMetadata :=
  let steps := m.reductionSteps ++ [step]
  { m with
    reductionSteps := steps
    reductionReason := if steps.length > 1 then .combined else m.reductionReason }

end ReductionMetadata

/-! ## safety.rs: cardinality detection -/

/-- `safety.rs::CardinalityLevel`. -/
inductive CardinalityLevel where
  | low
  | medium
  | high
  | veryHigh
  | continuous
  deriving DecidableEq, Repr

/-- `safety.rs::CardinalityAction`. -/
inductive CardinalityAction where
  | noAction
  | applyTopN (n : ℕ)
  | applyBinning (binCount : ℕ)
  | applyDateBinning (granularity : DateBinGranularity)
  | applySampling (ratio : ℚ)
  | blockWithWarning (msg : String)
  deriving DecidableEq, Repr

/-- `safety.rs::CardinalityInfo`. -/
structure CardinalityInfo where
  columnName : String
  uniqueCount : ℕ
  totalCount : ℕ
  cardinalityLevel : CardinalityLevel
  isNumeric : Bool
  isDatetime : Bool
  nullCount : ℕ
  recommendedAction : CardinalityAction
  deriving DecidableEq, Repr

/-- ceiling of the square root (`(total_rows as f64).sqrt().ceil() as usize`;
exact at every size the claims range over). -/
def ceilSqrt (n : ℕ) : ℕ :=
  if Nat.sqrt n * Nat.sqrt n == n then Nat.sqrt n else Nat.sqrt n + 1

namespace CardinalityInfo

/-- `CardinalityInfo::determine_action`. -/
def determineAction (level : CardinalityLevel) (_isNumeric isDatetime : Bool)
    (uniqueCount totalRows : ℕ) : CardinalityAction :=
  match level with
  | .low | .medium => .noAction
  | .high =>
    if isDatetime then .applyDateBinning .month
    else .applyTopN DEFAULT_TOP_N
  | .veryHigh =>
    if isDatetime then
      let granularity : DateBinGranularity :=
        if uniqueCount > 10000 then .year
        else if uniqueCount > 1000 then .month
        else .day
      .applyDateBinning granularity
    else .applyTopN DEFAULT_TOP_N
  | .continuous =>
    if isDatetime then .applyDateBinning .month
    else if totalRows > MAX_VISUAL_POINTS then
      .applyBinning (min (ceilSqrt totalRows) 100)
    else .noAction

/-- `CardinalityInfo::estimate`.  `lnApprox` stands for `f64::ln`, reached
only when `total_rows > 10_000`. -/
def estimate (lnApprox : ℚ → ℚ) (name : String) (dtype : DType) (cells : List Cell)
    (totalRows : ℕ) : CardinalityInfo :=
  let isNumeric := dtype == .tNum
  let isDatetime := dtype == .tDate
  let sampleSize := min 10000 totalRows
  let sampled := if totalRows > sampleSize then cells.take sampleSize else cells
  let uniqueCount := (firstOccur sampled).length
  let nullCount := (sampled.filter (fun c => c == Cell.null)).length
  let estimatedUnique :=
    if totalRows > sampleSize then
      qCeilNat ((uniqueCount : ℚ) * max (lnApprox ((totalRows : ℚ) / (sampleSize : ℚ))) 1)
    else uniqueCount
  let cardinalityLevel :=
    if isNumeric && !isDatetime then CardinalityLevel.continuous
    else if estimatedUnique ≤ 10 then .low
    else if estimatedUnique ≤ 100 then .medium
    else if estimatedUnique ≤ HIGH_CARDINALITY_THRESHOLD then .high
    else .veryHigh
  let recommendedAction :=
    determineAction cardinalityLevel isNumeric isDatetime estimatedUnique totalRows
  { columnName := name
    uniqueCount := estimatedUnique
    totalCount := totalRows
    cardinalityLevel := cardinalityLevel
    isNumeric := isNumeric
    isDatetime := isDatetime
    nullCount := nullCount
    recommendedAction := recommendedAction }

end CardinalityInfo

/-! ## safety.rs: chart safety configs and memory check -/

/-- `safety.rs::ChartSafetyConfig`. -/
structure ChartSafetyConfig where
  maxPoints : ℕ
  requiresAggregation : Bool
  allowsSampling : Bool
  supportsPagination : Bool
  maxBins : ℕ
  chartTypeName : String
  deriving DecidableEq, Repr

namespace ChartSafetyConfig

/-- `ChartSafetyConfig::bar`. -/
def bar : ChartSafetyConfig :=
  { maxPoints := DEFAULT_BAR_LINE_LIMIT, requiresAggregation := true, allowsSampling := false,
    supportsPagination := false, maxBins := 500, chartTypeName := "Bar chart" }

/-- `ChartSafetyConfig::line`. -/
def line : ChartSafetyConfig :=
  { maxPoints := DEFAULT_BAR_LINE_LIMIT, requiresAggregation := true, allowsSampling := false,
    supportsPagination := false, maxBins := 1000, chartTypeName := "Line chart" }

/-- `ChartSafetyConfig::area`. -/
def area : ChartSafetyConfig :=
  { maxPoints := DEFAULT_BAR_LINE_LIMIT, requiresAggregation := true, allowsSampling := false,
    supportsPagination := false, maxBins := 500, chartTypeName := "Area chart" }

/-- `ChartSafetyConfig::pie`. -/
def pie : ChartSafetyConfig :=
  { maxPoints := 20, requiresAggregation := true, allowsSampling := false,
    supportsPagination := false, maxBins := 20, chartTypeName := "Pie chart" }

/-- `ChartSafetyConfig::scatter`. -/
def scatter : ChartSafetyConfig :=
  { maxPoints := DEFAULT_SCATTER_LIMIT, requiresAggregation := false, allowsSampling := true,
    supportsPagination := false, maxBins := 0, chartTypeName := "Scatter plot" }

/-- `ChartSafetyConfig::heatmap`. -/
def heatmap : ChartSafetyConfig :=
  { maxPoints := 10000, requiresAggregation := true, allowsSampling := false,
    supportsPagination := false, maxBins := 100, chartTypeName := "Heatmap" }

/-- `ChartSafetyConfig::table`. -/
def table : ChartSafetyConfig :=
  { maxPoints := DEFAULT_TABLE_PAGE_SIZE, requiresAggregation := false, allowsSampling := false,
    supportsPagination := true, maxBins := 0, chartTypeName := "Table" }

/-- `ChartSafetyConfig::for_chart_type` (case-insensitive lookup; the
embedding receives already-lowercased names from `chartTypeStr` but applies
the same normalization the source does). -/
def forChartType (chartType : String) : ChartSafetyConfig :=
  let n := chartType.toLower
  if n == "bar" then bar
  else if n == "line" then line
  else if n == "area" then area
  else if n == "pie" then pie
  else if n == "scatter" then scatter
  else if n == "heatmap" then heatmap
  else if n == "table" then table
  else bar

end ChartSafetyConfig

/-- `safety.rs::MemorySafetyCheck`. -/
structure MemorySafetyCheck where
  estimatedBytes : ℕ
  isSafe : Bool
  recommendation : String
  deriving DecidableEq, Repr

/-- `MemorySafetyCheck::estimate` (note the source divides the product back
by `column_count.max(1)`, so the estimate is effectively rows * 256). -/
def MemorySafetyCheck.estimate (rowCount columnCount : ℕ) : MemorySafetyCheck :=
  let estimatedBytes := rowCount * columnCount * ESTIMATED_BYTES_PER_ROW / max columnCount 1
  let isSafe := estimatedBytes < MAX_MEMORY_BUDGET
  { estimatedBytes := estimatedBytes
    isSafe := isSafe
    recommendation :=
      if isSafe then "Query is within memory budget"
      else "Query would use ~" ++ toString (estimatedBytes / (1024 * 1024))
        ++ "MB, exceeding " ++ toString (MAX_MEMORY_BUDGET / (1024 * 1024))
        ++ "MB budget. Apply aggregation or sampling." }

/-! ## planner.rs: execution plans -/

/-- `planner.rs::Transformation`. -/
inductive Transformation where
  | filter (filters : List FilterSpec)
  | dateBin (column : String) (granularity : DateBinGranularity)
  | numericBin (column : String) (binCount : ℕ)
  | aggregate (groupBy measure : String) (aggregation : AggregationType)
  | topN (column : String) (n : ℕ) (includeOthers : Bool)
  | sample (targetRows seed : ℕ)
  | limit (n : ℕ)
  | sort (column : String) (descending : Bool)
  deriving DecidableEq, Repr

/-- `planner.rs::ExecutionPlan`.  The `HashMap<String, CardinalityInfo>` is an
insertion map embedded as an association list with overwriting insert. -/
structure ExecutionPlan where
  originalRowCount : ℕ
  safetyConfig : ChartSafetyConfig
  transformations : List Transformation
  reductionMetadata : ReductionMetadata
  isSafe : Bool
  blockingReason : Option String
  cardinalityInfo : List (String × CardinalityInfo)
  deriving DecidableEq, Repr

/-- `HashMap::insert`: overwrite the binding when the key is present. -/
def mapInsert (m : List (String × CardinalityInfo)) (k : String) (v : CardinalityInfo) :
    List (String × CardinalityInfo) :=
  if m.any (fun p => p.1 == k) then
    m.map (fun p => if p.1 == k then (k, v) else p)
  else m ++ [(k, v)]

/-- `HashMap::get` with the `unwrap` default (the planner only ever reads
keys it inserted). -/
def mapGetD (m : List (String × CardinalityInfo)) (k : String) (dflt : CardinalityInfo) :
    CardinalityInfo :=
  match m.find? (fun p => p.1 == k) with
  | some p => p.2
  | none => dflt

/-- `ExecutionPlan::blocked`. -/
def ExecutionPlan.blocked (reason : String) (rowCount : ℕ) : ExecutionPlan :=
  { originalRowCount := rowCount
    safetyConfig := ChartSafetyConfig.bar
    transformations := []
    reductionMetadata := ReductionMetadata.noReduction rowCount
    isSafe := false
    blockingReason := some reason
    cardinalityInfo := [] }

/-- `format!("dates binned by {:?}", gran).to_lowercase()` tail. -/
def granularityStrLower : DateBinGranularity → String
  | .year => "year"
  | .quarter => "quarter"
  | .month => "month"
  | .week => "week"
  | .day => "day"
  | .hour => "hour"

/-- `format!("{:?}", granularity)` (Rust Debug names). -/
def granularityStrDebug : DateBinGranularity → String
  | .year => "Year"
  | .quarter => "Quarter"
  | .month => "Month"
  | .week => "Week"
  | .day => "Day"
  | .hour => "Hour"

/-- `QueryPlanner::generate_warning_message`. -/
def generateWarningMessage (meta : ReductionMetadata) : String :=
  let parts := meta.reductionSteps.foldl (fun acc step =>
    match step.stepType with
    | .autoAggregation =>
      acc ++ ["aggregated from " ++ formatNumber step.inputRows ++ " to "
        ++ formatNumber step.outputRows ++ " groups"]
    | .sampling =>
      match meta.sampleFraction with
      | some ratio =>
        acc ++ ["sampled " ++ fmtQ1 (ratio * 100) ++ "% ("
          ++ formatNumber step.outputRows ++ " points)"]
      | none => acc
    | .topN =>
      match meta.topNValue with
      | some n => acc ++ ["showing top " ++ toString n ++ " categories"]
      | none => acc
    | .dateBinning =>
      match meta.dateBinGranularity with
      | some gran => acc ++ ["dates binned by " ++ granularityStrLower gran]
      | none => acc
    | _ => acc) []
  if parts.isEmpty then "Data was reduced for performance"
  else "Data was " ++ String.intercalate ", " parts

/-- A placeholder `CardinalityInfo` for the (unreachable) missing-key case of
the planner's `unwrap`. -/
def dummyCardInfo : CardinalityInfo :=
  { columnName := "", uniqueCount := 0, totalCount := 0, cardinalityLevel := .low,
    isNumeric := false, isDatetime := false, nullCount := 0, recommendedAction := .noAction }

/-- `QueryPlanner::plan`.  The planner value's `zoom_context` field is the
`zoomContext` argument (`QueryPlanner::new` uses `ZoomContext::default_view`). -/
def plannerPlan (lnApprox : ℚ → ℚ) (zoomContext : ZoomContext) (df : DFrame)
    (spec : VisualizationSpec) : Except DataError ExecutionPlan := do
  let rowCount := df.height
  let safetyConfig := ChartSafetyConfig.forChartType (chartTypeStr spec.chartType)
  -- Step 1: memory safety check (informational only; the branch body is empty)
  let _memCheck := MemorySafetyCheck.estimate rowCount df.width
  -- Step 2: cardinality of X and Y
  let cardinalityInfo ←
    match df.colIdx spec.xField with
    | none =>
      throw (DataError.parseError ("X field \x27" ++ spec.xField ++ "\x27 not found in dataset"))
    | some xi =>
      match df.colIdx spec.yField with
      | none =>
        throw (DataError.parseError ("Y field \x27" ++ spec.yField ++ "\x27 not found in dataset"))
      | some yi =>
        let xCard := CardinalityInfo.estimate lnApprox spec.xField (colDType df xi)
          (colCells df xi) rowCount
        let yCard := CardinalityInfo.estimate lnApprox spec.yField (colDType df yi)
          (colCells df yi) rowCount
        pure (mapInsert (mapInsert [] spec.xField xCard) spec.yField yCard)
  -- Step 3: build transformation pipeline
  let transformations₀ : List Transformation := []
  let metadata₀ := ReductionMetadata.noReduction rowCount
  -- 3a: filters first
  let transformations₁ :=
    if spec.filters.isEmpty then transformations₀
    else transformations₀ ++ [Transformation.filter spec.filters]
  -- 3b: date binning (the source re-reads x_card from the map here; when
  -- x_field = y_field that read observes the Y entry, which the embedding
  -- reproduces)
  let xCard := mapGetD cardinalityInfo spec.xField dummyCardInfo
  let (transformations₂, metadata₁) :=
    if xCard.isDatetime then
      match xCard.recommendedAction with
      | .applyDateBinning granularity =>
        (transformations₁ ++ [Transformation.dateBin spec.xField granularity],
         ReductionMetadata.addStep
           { metadata₀ with dateBinGranularity := some granularity }
           ⟨.dateBinning, rowCount, rowCount,
            "Date binned to " ++ granularityStrDebug granularity⟩)
      | _ => (transformations₁, metadata₀)
    else (transformations₁, metadata₀)
  -- 3c: aggregation
  let needsAggregation :=
    safetyConfig.requiresAggregation || xCard.uniqueCount > safetyConfig.maxPoints
  let (transformations₃, metadata₂) :=
    if needsAggregation then
      (transformations₂
         ++ [Transformation.aggregate spec.xField spec.yField spec.aggregation],
       ReductionMetadata.aggregated rowCount (min xCard.uniqueCount rowCount))
    else (transformations₂, metadata₁)
  -- 3d: Top-N after aggregation
  let effectiveCardinality := if needsAggregation then xCard.uniqueCount else rowCount
  let (transformations₄, metadata₃) :=
    if effectiveCardinality > safetyConfig.maxPoints then
      match xCard.recommendedAction with
      | .applyTopN n₀ =>
        let n := min n₀ safetyConfig.maxPoints
        (transformations₃ ++ [Transformation.topN spec.xField n true],
         { ReductionMetadata.addStep metadata₂
             ⟨.topN, effectiveCardinality, n + 1, "Top-" ++ toString n ++ " with Others"⟩
           with topNValue := some n })
      | _ =>
        let n := min DEFAULT_TOP_N safetyConfig.maxPoints
        (transformations₃ ++ [Transformation.topN spec.xField n true],
         { ReductionMetadata.addStep metadata₂
             ⟨.topN, effectiveCardinality, n + 1,
              "Top-" ++ toString n ++ " with Others (safety limit)"⟩
           with topNValue := some n })
    else (transformations₃, metadata₂)
  -- 3e: sampling for charts that allow raw rows
  let (transformations₅, metadata₄) :=
    if safetyConfig.allowsSampling && !needsAggregation
        && rowCount > safetyConfig.maxPoints then
      let target := zoomContext.calculatePointLimit safetyConfig.maxPoints
      let ratio : ℚ := (target : ℚ) / (rowCount : ℚ)
      (transformations₄ ++ [Transformation.sample target SAMPLING_SEED],
       ReductionMetadata.sampled rowCount target ratio)
    else (transformations₄, metadata₃)
  -- 3f: sorting
  let sortColumn : Option String :=
    match spec.sortBy with
    | .x => some spec.xField
    | .y => some "value"
    | .none => none
  let transformations₆ :=
    match sortColumn with
    | some c => transformations₅ ++ [Transformation.sort c (spec.sortOrder == .desc)]
    | none => transformations₅
  -- 3g: final safety limit (absolute cap)
  let finalLimit := min safetyConfig.maxPoints MAX_VISUAL_POINTS
  let transformations₇ := transformations₆ ++ [Transformation.limit finalLimit]
  -- metadata finalization
  let metadata₅ :=
    if metadata₄.reductionSteps.length > 1 then
      { metadata₄ with reductionReason := .combined }
    else metadata₄
  let metadata₆ :=
    if !metadata₅.reductionSteps.isEmpty then { metadata₅ with reduced := true } else metadata₅
  let metadata₇ :=
    if metadata₆.reduced then
      { metadata₆ with warningMessage := some (generateWarningMessage metadata₆) }
    else metadata₆
  pure {
    originalRowCount := rowCount
    safetyConfig := safetyConfig
    transformations := transformations₇
    reductionMetadata := metadata₇
    isSafe := true
    blockingReason := none
    cardinalityInfo := cardinalityInfo }

/-! ## planner.rs: PlanExecutor

Date-component helpers model the chrono arithmetic behind polars' `dt`
namespace on `Date` columns (days since the epoch via the standard civil-date
algorithm, ISO weekday and ISO week number). -/

/-- Days from the civil epoch 1970-01-01 (Howard Hinnant's algorithm; Rust's
`i32` division truncates, hence `Int.tdiv`, though every division below has a
non-negative dividend). -/
def daysFromCivil (y : ℤ) (m d : ℕ) : ℤ :=
  let y' := y - (if m ≤ 2 then 1 else 0)
  let era := Int.tdiv (if 0 ≤ y' then y' else y' - 399) 400
  let yoe := y' - era * 400
  let doy := Int.tdiv (153 * ((m : ℤ) + (if m > 2 then -3 else 9)) + 2) 5 + (d : ℤ) - 1
  let doe := yoe * 365 + Int.tdiv yoe 4 - Int.tdiv yoe 100 + doy
  era * 146097 + doe - 719468

/-- ISO weekday, Monday = 1 … Sunday = 7 (1970-01-01 was a Thursday). -/
def isoWeekday (y : ℤ) (m d : ℕ) : ℤ :=
  (daysFromCivil y m d + 3) % 7 + 1

/-- Number of ISO weeks in a year. -/
def weeksInYear (y : ℤ) : ℤ :=
  if isoWeekday y 1 1 = 4 ∨ isoWeekday y 12 31 = 4 then 53 else 52

/-- ISO 8601 week number. -/
def isoWeek (y : ℤ) (m d : ℕ) : ℤ :=
  let doy := daysFromCivil y m d - daysFromCivil y 1 1 + 1
  let wd := isoWeekday y m d
  let w := Int.tdiv (doy - wd + 10) 7
  if w < 1 then weeksInYear (y - 1)
  else if w > weeksInYear y then 1
  else w

/-- Zero-padded two-digit month for `strftime("%Y-%m")`. -/
def pad2 (n : ℕ) : String := if n < 10 then "0" ++ toString n else toString n

/-- One cell under a date-binning expression; `none` means the polars
expression errors on the column's dtype. -/
def dateBinCell (granularity : DateBinGranularity) : Cell → Option Cell
  | Cell.null => some Cell.null
  | Cell.date y m d =>
    match granularity with
    | .year => some (.num (y : ℚ))
    | .quarter => some (.num (((m + 2) / 3 : ℕ) : ℚ))
    | .month => some (.str (toString y ++ "-" ++ pad2 m))
    | .week => some (.num ((isoWeek y m d : ℤ) : ℚ))
    | .day => some (.date y m d)
    | .hour => none  -- `dt().hour()` is not defined for the `Date` dtype
  | _ => none  -- `dt` namespace on a non-temporal dtype

/-- Result dtype of a date-binning expression. -/
def dateBinDType : DateBinGranularity → DType
  | .month => .tStr
  | .day => .tDate
  | _ => .tNum

/-- `PlanExecutor::apply_date_binning`: `with_column` replacing the column
with its binned values (aliased back to the same name). -/
def applyDateBinning (d : DFrame) (column : String) (granularity : DateBinGranularity) :
    Except DataError DFrame := do
  match d.colIdx column with
  | none => throw (.parseError ("unable to find column " ++ column))
  | some i =>
    let rows ← d.rows.mapM (fun r => do
      match dateBinCell granularity (getCell r i) with
      | some c => pure (r.set i c)
      | none => throw (DataError.parseError "invalid operation for column dtype"))
    pure { d with
      rows := rows
      dtypes := d.dtypes.set i (dateBinDType granularity) }

/-- `PlanExecutor::apply_filters`, the executor's own filter builder.  It
differs from `query.rs::apply_filter` in its fallback arms: an `Eq`/`Neq`
whose value is none of the dispatched JSON types compares against a null
literal, which makes the whole predicate null and drops every row. -/
def applyFilterExec (d : DFrame) (f : FilterSpec) : Except DataError DFrame := do
  match f.operator, f.value with
  | .eq, .null => pure { d with rows := [] }   -- col.eq(lit(Null)): all-null mask
  | .neq, .b _ => pure { d with rows := [] }   -- Neq has no boolean arm; null literal
  | .neq, .null => pure { d with rows := [] }
  | .gt, v =>
    match v with
    | .f _ | .i _ => applyFilterQ d f
    | _ => throw (.parseError "GT requires numeric value")
  | .lt, v =>
    match v with
    | .f _ | .i _ => applyFilterQ d f
    | _ => throw (.parseError "LT requires numeric value")
  | .gte, v =>
    match v with
    | .f _ | .i _ => applyFilterQ d f
    | _ => throw (.parseError "GTE requires numeric value")
  | .lte, v =>
    match v with
    | .f _ | .i _ => applyFilterQ d f
    | _ => throw (.parseError "LTE requires numeric value")
  | _, _ => applyFilterQ d f

/-- The executor's filter loop. -/
def applyFiltersExec (d : DFrame) (filters : List FilterSpec) : Except DataError DFrame :=
  filters.foldlM applyFilterExec d

/-- `PlanExecutor::apply_numeric_binning` is a documented placeholder that
returns the frame unchanged. -/
def applyNumericBinning (d : DFrame) (_column : String) (_binCount : ℕ) :
    Except DataError DFrame :=
  pure d

/-- `PlanExecutor::apply_top_n`.  With `include_others` it sorts descending
by `"value"`, limits to `n + 1`, and if more than `n` rows were collected
keeps only the top `n`; no Others row is ever constructed (the `_column`
parameter is unused, as in the source). -/
def execApplyTopN (d : DFrame) (_column : String) (n : ℕ) (includeOthers : Bool) :
    Except DataError DFrame := do
  match d.colIdx "value" with
  | none => throw (.parseError ("unable to find column value"))
  | some vi =>
    if includeOthers then
      let collected := (sortRows d.rows vi true).take (n + 1)
      if collected.length ≤ n then pure { d with rows := collected }
      else pure { d with rows := collected.take n }
    else
      pure { d with rows := (sortRows d.rows vi true).take n }

/-- Wrap of `u64 as i64` (the executor casts the seed before the modulo). -/
def u64AsI64 (n : ℕ) : ℤ :=
  if n % 2 ^ 64 < 2 ^ 63 then (n % 2 ^ 64 : ℤ) else (n % 2 ^ 64 : ℤ) - 2 ^ 64

/-- `PlanExecutor::apply_sampling`: keep rows whose index is divisible by
`seed as i64 % 100 + 1`, then limit.  (`%` on `i64` is Rust's truncating
remainder, `Int.emod` agrees with it on the non-negative values reachable
here.) -/
def execApplySampling (d : DFrame) (targetRows seed : ℕ) : Except DataError DFrame :=
  let k : ℤ := Int.emod (u64AsI64 seed) 100 + 1
  pure { d with
    rows := ((d.rows.enum.filter (fun p => Int.emod (p.1 : ℤ) k == 0)).map Prod.snd).take
      targetRows }

/-- One step of the executor's interpretation loop. -/
def applyTransformation (d : DFrame) : Transformation → Except DataError DFrame
  | .filter filters => applyFiltersExec d filters
  | .dateBin column granularity => applyDateBinning d column granularity
  | .numericBin column binCount => applyNumericBinning d column binCount
  | .aggregate groupBy measure aggregation => applyAggregation d groupBy measure aggregation
  | .topN column n includeOthers => execApplyTopN d column n includeOthers
  | .sample targetRows seed => execApplySampling d targetRows seed
  | .limit n => pure { d with rows := d.rows.take n }
  | .sort column descending => sortByCol d column descending

/-- `PlanExecutor::execute`.  Refuses unsafe plans before touching any
transformation; otherwise folds the pipeline and overwrites
`returned_points` with the materialized height. -/
def planExecutorExecute (plan : ExecutionPlan) (df : DFrame) :
    Except DataError (DFrame × ReductionMetadata) := do
  if !plan.isSafe then
    throw (.parseError (plan.blockingReason.getD "Query blocked for safety"))
  else
    let result ← plan.transformations.foldlM applyTransformation df
    pure (result, { plan.reductionMetadata with returnedPoints := result.height })

/-! ## sampling.rs: deterministic sampling strategies -/

/-- `sampling.rs::SamplingConfig`. -/
structure SamplingConfig where
  targetSize : ℕ
  seed : ℕ
  preserveDistribution : Bool
  stratifyBy : Option String
  minSamplesPerStratum : ℕ
  deriving DecidableEq, Repr

/-- `SamplingConfig::default`. -/
def SamplingConfig.default : SamplingConfig :=
  { targetSize := 10000, seed := SAMPLING_SEED, preserveDistribution := true,
    stratifyBy := none, minSamplesPerStratum := 10 }

/-- `sampling.rs::SamplingMethod`. -/
inductive SamplingMethod where
  | reservoir
  | stratified
  | systematic
  | hash
  deriving DecidableEq, Repr

/-- `sampling.rs::StratumStats`. -/
structure StratumStats where
  stratumValue : String
  originalCount : ℕ
  sampledCount : ℕ
  sampleFraction : ℚ
  deriving DecidableEq, Repr

/-- `sampling.rs::SamplingResult`. -/
structure SamplingResult where
  data : DFrame
  originalRows : ℕ
  sampledRows : ℕ
  sampleFraction : ℚ
  distributionPreserved : Bool
  method : SamplingMethod
  strataStats : Option (List StratumStats)
  deriving DecidableEq, Repr

/-- The large prime of the reservoir score expression. -/
def RESERVOIR_PRIME : ℕ := 1000000007

/-- The reservoir selection pipeline on rows: index, score with
`(idx * seed) % large_prime`, sort ascending by score, keep the first
`targetSize`, restore original index order, drop the helpers.  (Both sorts
are stable here; the score sort's ties are unspecified in polars.) -/
def reservoirSelect (rows : List (List Cell)) (targetSize seed : ℕ) : List (List Cell) :=
  let score : ℕ × List Cell → ℕ := fun p => p.1 * seed % RESERVOIR_PRIME
  let sorted := insertionSortB (fun a b => decide (score a ≤ score b)) rows.enum
  let taken := sorted.take targetSize
  let restored := insertionSortB (fun a b => decide (a.1 ≤ b.1)) taken
  restored.map Prod.snd

/-- `ReservoirSampler::sample`. -/
def reservoirSample (config : SamplingConfig) (df : DFrame) (totalRows : ℕ) : SamplingResult :=
  if totalRows ≤ config.targetSize then
    { data := df, originalRows := totalRows, sampledRows := totalRows, sampleFraction := 1,
      distributionPreserved := true, method := .reservoir, strataStats := none }
  else
    let ratio : ℚ := (config.targetSize : ℚ) / (totalRows : ℚ)
    let sampled := { df with rows := reservoirSelect df.rows config.targetSize config.seed }
    { data := sampled, originalRows := totalRows, sampledRows := sampled.height,
      sampleFraction := ratio, distributionPreserved := true, method := .reservoir,
      strataStats := none }

/-- `SystematicSampler::sample`.  `interval_int` is
`(total as f64 / target as f64).ceil() as i64`; the `target = 0` corner is
the saturating float-to-int cast. -/
def systematicSample (config : SamplingConfig) (df : DFrame) (totalRows : ℕ) : SamplingResult :=
  if totalRows ≤ config.targetSize then
    { data := df, originalRows := totalRows, sampledRows := totalRows, sampleFraction := 1,
      distributionPreserved := true, method := .systematic, strataStats := none }
  else
    let intervalInt : ℕ :=
      if config.targetSize == 0 then 2 ^ 63 - 1
      else (totalRows + config.targetSize - 1) / config.targetSize
    let start : ℕ := config.seed % intervalInt
    let rows := ((df.rows.enum.filter (fun p =>
        Int.emod ((p.1 : ℤ) - (start : ℤ)) (intervalInt : ℤ) == 0)).map Prod.snd).take
      config.targetSize
    let sampled := { df with rows := rows }
    { data := sampled, originalRows := totalRows, sampledRows := sampled.height,
      sampleFraction := (sampled.height : ℚ) / (totalRows : ℚ),
      distributionPreserved := true, method := .systematic, strataStats := none }

/-- `HashSampler::sample`.  The `key_columns` field is carried but, as in the
source, never used by the hash expression, which keys on the row index. -/
def hashSample (config : SamplingConfig) (_keyColumns : List String) (df : DFrame) :
    SamplingResult :=
  let totalRows := df.height
  if totalRows ≤ config.targetSize then
    { data := df, originalRows := totalRows, sampledRows := totalRows, sampleFraction := 1,
      distributionPreserved := true, method := .hash, strataStats := none }
  else
    let modulo : ℕ :=
      if config.targetSize == 0 then 2 ^ 64 - 1
      else (totalRows + config.targetSize - 1) / config.targetSize
    let rows := ((df.rows.enum.filter (fun p =>
        Int.emod ((p.1 : ℤ) * 2654435761 + u64AsI64 config.seed) (modulo : ℤ) == 0)).map
      Prod.snd).take config.targetSize
    let sampled := { df with rows := rows }
    { data := sampled, originalRows := totalRows, sampledRows := sampled.height,
      sampleFraction := (sampled.height : ℚ) / (totalRows : ℚ),
      distributionPreserved := false, method := .hash, strataStats := none }

/-- `StratifiedSampler::sample`.  Strata come from `unique()` on the
stratification column, whose unspecified order the embedding fixes to first
occurrence; each stratum is reservoir-sampled with the seed offset by the
stratum index (`wrapping_add` on `u64`). -/
def stratifiedSample (config : SamplingConfig) (df : DFrame) : Except DataError SamplingResult :=
  let totalRows := df.height
  if totalRows ≤ config.targetSize then
    pure { data := df, originalRows := totalRows, sampledRows := totalRows,
           sampleFraction := 1, distributionPreserved := true, method := .stratified,
           strataStats := none }
  else
    match config.stratifyBy with
    | none => pure (reservoirSample config df totalRows)
    | some stratifyCol =>
      match df.colIdx stratifyCol with
      | none => throw (.parseError ("unable to find column " ++ stratifyCol))
      | some si =>
        let uniqueStrata := firstOccur (colCells df si)
        let overallRatio : ℚ := (config.targetSize : ℚ) / (totalRows : ℚ)
        let results := uniqueStrata.enum.map (fun p =>
          -- polars' `equal` yields a null (dropping) mask entry whenever either
          -- side is null, so rows of the null stratum are silently dropped:
          -- a null stratum collects no rows
          let stratumRows := df.rows.filter (fun r =>
            p.2 != Cell.null && getCell r si == p.2)
          let stratumSize := stratumRows.length
          let targetForStratum :=
            min (max (qCeilNat ((stratumSize : ℚ) * overallRatio))
                 config.minSamplesPerStratum)
              stratumSize
          let stratumConfig := { config with
            targetSize := targetForStratum
            seed := (config.seed + p.1) % 2 ^ 64 }
          let r := reservoirSample stratumConfig { df with rows := stratumRows } stratumSize
          (r, ({ stratumValue := cellToString p.2, originalCount := stratumSize,
                 sampledCount := r.sampledRows,
                 sampleFraction := r.sampleFraction } : StratumStats)))
        if results.isEmpty then
          throw (.parseError "No strata to sample")
        else
          let combinedRows := (results.map (fun r => r.1.data.rows)).flatten
          let sampledRows := combinedRows.length
          pure {
            data := { df with rows := combinedRows }
            originalRows := totalRows
            sampledRows := sampledRows
            sampleFraction := (sampledRows : ℚ) / (totalRows : ℚ)
            distributionPreserved := true
            method := .stratified
            strataStats := some (results.map (fun r => r.2)) }

/-- `sampling.rs::auto_sample`. -/
def autoSample (df : DFrame) (targetSize : ℕ) (stratifyBy : Option String) :
    Except DataError SamplingResult :=
  let config : SamplingConfig :=
    { targetSize := targetSize, seed := SAMPLING_SEED,
      preserveDistribution := stratifyBy.isSome, stratifyBy := stratifyBy,
      minSamplesPerStratum := 10 }
  match stratifyBy with
  | some _ => stratifiedSample config df
  | none => pure (reservoirSample config df df.height)

/-- `sampling.rs::scatter_sample`. -/
def scatterSample (df : DFrame) (totalRows targetSize : ℕ) : SamplingResult :=
  systematicSample { SamplingConfig.default with targetSize := targetSize } df totalRows

/-! ## Concrete fixtures (used by witness theorems) -/

/-- A one-row dataset for exercising the planner and the query pipeline. -/
def fixtureDF : DFrame := ⟨["x", "y"], [DType.tStr, DType.tNum], [[Cell.str "a", Cell.num 1]]⟩

/-- A bar-chart spec over `fixtureDF`. -/
def fixtureSpec : VisualizationSpec :=
  { chartType := .bar, xField := "x", yField := "y", aggregation := .sum,
    groupBy := none, sortBy := .none, sortOrder := .none, title := "t", filters := [] }

/-- The plan the planner produces on the fixture. -/
def fixturePlan : ExecutionPlan :=
  match plannerPlan (fun q => q) ZoomContext.defaultView fixtureDF fixtureSpec with
  | .ok p => p
  | .error _ => ExecutionPlan.blocked "" 0

/-- The chart the visualization query produces on the fixture. -/
def fixtureChart : ChartData :=
  match executeVisualizationQuery (fun q => q) fixtureSpec fixtureDF with
  | .ok c => c
  | .error _ => ⟨[], [], ⟨"", "", "", 0, false, "", 0, 0, none, none, none⟩⟩

/-! ## Shared helper lemmas -/

/-- Inversion of a successful `Except` bind. -/
theorem except_bind_ok {ε α β : Type} {x : Except ε α} {f : α → Except ε β} {b : β}
    (h : (x >>= f) = Except.ok b) : ∃ a, x = Except.ok a ∧ f a = Except.ok b := by
  cases x with
  | ok a => exact ⟨a, rfl, h⟩
  | error e => simp [Bind.bind, Except.bind] at h

/-- A successful `cellSumQ` computes the sum of the zero-defaulted numeric
readings. -/
theorem cellSumQ_eq (cs : List Cell) (s : ℚ) (h : cellSumQ cs = Except.ok s) :
    (cs.map cellQD).sum = s := by
  induction cs generalizing s with
  | nil =>
    simp only [cellSumQ, pure, Except.pure, Except.ok.injEq] at h
    simp [← h]
  | cons c rest ih =>
    cases c with
    | null =>
      simp only [cellSumQ] at h
      simpa [cellQD] using ih s h
    | num q =>
      simp only [cellSumQ] at h
      obtain ⟨a, ha, hb⟩ := except_bind_ok h
      simp only [pure, Except.pure, Except.ok.injEq] at hb
      simp [cellQD, ih a ha, ← hb, add_comm]
    | str v => simp [cellSumQ, throw, Except.error] at h
    | bool b => simp [cellSumQ, throw, Except.error] at h
    | date y m d => simp [cellSumQ, throw, Except.error] at h

/-- Indices appearing in `enumFrom n l` are at least `n`. -/
theorem le_fst_of_mem_enumFrom {α : Type} :
    ∀ {l : List α} {n : ℕ} {x : ℕ × α}, x ∈ List.enumFrom n l → n ≤ x.1 := by
  intro l
  induction l with
  | nil => intro n x h; simp at h
  | cons a as ih =>
    intro n x h
    simp only [List.enumFrom_cons, List.mem_cons] at h
    rcases h with h | h
    · simp [h]
    · exact Nat.le_of_succ_le (ih h)

/-- Indices appearing in `enumFrom n l` are below `n + l.length`. -/
theorem fst_lt_of_mem_enumFrom {α : Type} :
    ∀ {l : List α} {n : ℕ} {x : ℕ × α}, x ∈ List.enumFrom n l → x.1 < n + l.length := by
  intro l
  induction l with
  | nil => intro n x h; simp at h
  | cons a as ih =>
    intro n x h
    simp only [List.enumFrom_cons, List.mem_cons] at h
    rcases h with h | h
    · simp [h]
    · have := ih h
      simp only [List.length_cons]
      omega

/-- `enumFrom` is strictly sorted on the index component. -/
theorem pairwise_fst_lt_enumFrom {α : Type} :
    ∀ (l : List α) (n : ℕ), List.Pairwise (fun a b => a.1 < b.1) (List.enumFrom n l) := by
  intro l
  induction l with
  | nil => intro n; simp
  | cons a as ih =>
    intro n
    simp only [List.enumFrom_cons, List.pairwise_cons]
    exact ⟨fun x hx => Nat.lt_of_lt_of_le (Nat.lt_succ_self n) (le_fst_of_mem_enumFrom hx),
      ih (n + 1)⟩

/-- `orderedInsertB` permutes to consing. -/
theorem orderedInsertB_perm {α : Type} (le : α → α → Bool) (a : α) (l : List α) :
    (orderedInsertB le a l).Perm (a :: l) := by
  induction l with
  | nil => simp [orderedInsertB]
  | cons b l ih =>
    simp only [orderedInsertB]
    split
    · exact List.Perm.refl _
    · exact (ih.cons b).trans (List.Perm.swap a b l)

/-- `insertionSortB` permutes its input. -/
theorem insertionSortB_perm {α : Type} (le : α → α → Bool) (l : List α) :
    (insertionSortB le l).Perm l := by
  induction l with
  | nil => simp [insertionSortB]
  | cons a l ih =>
    exact (orderedInsertB_perm le a (insertionSortB le l)).trans (ih.cons a)

/-- `insertionSortB` fixes an already-sorted list. -/
theorem insertionSortB_of_sorted {α : Type} {le : α → α → Bool} :
    ∀ {l : List α}, l.Pairwise (fun x y => le x y = true) → insertionSortB le l = l := by
  intro l
  induction l with
  | nil => intro _; rfl
  | cons a l ih =>
    intro h
    rw [List.pairwise_cons] at h
    rw [insertionSortB, ih h.2]
    cases l with
    | nil => rfl
    | cons b l' =>
      have hab : le a b = true := h.1 b (List.mem_cons_self b l')
      simp [orderedInsertB, hab]

/-- `sortRows` permutes the rows. -/
theorem sortRows_perm (rows : List (List Cell)) (i : ℕ) (descending : Bool) :
    (sortRows rows i descending).Perm rows :=
  insertionSortB_perm _ rows

/-- `selectColumns` preserves the row count. -/
theorem selectColumns_length {colNames : List String} {rows : List (List Cell)}
    {wanted : List String} {sel : List (List Cell)}
    (h : selectColumns colNames rows wanted = Except.ok sel) : sel.length = rows.length := by
  unfold selectColumns at h
  obtain ⟨idxs, _, hb⟩ := except_bind_ok h
  simp only [pure, Except.pure, Except.ok.injEq] at hb
  simp [← hb]

/-! ## Claim theorems -/

section

/- Batteries marks rational arithmetic `@[irreducible]`; concrete evaluation
by `decide` needs it unfolded (the kernel re-checks everything either way). -/
attribute [local semireducible] Rat.add Rat.mul Rat.sub Rat.inv

/-- C6: the claim says no core operation panics on user-controlled input and
that `execute_table_query` returns a structured result or error for every
`(page, page_size)`, including `page_size = 0`.  The code refutes it: at
`page_size = 0` the clamped page size is 0 and computing `total_pages`
divides by zero, a Rust panic.  This theorem evaluates the embedded code at
that failing input. -/
theorem execute_table_query_page_size_zero_panics :
    executeTableQuery [] 0 0 none false []
      ⟨["a"], [DType.tNum], [[Cell.num 1]]⟩ = TableOutcome.panic := by decide

/-- C3: the claim says `PlanExecutor::apply_top_n` with `include_others`
appends a synthetic Others row summing the remaining groups whenever the
group count exceeds N.  The code refutes it: on the aggregated groups
A=55, B=67, C=62 with N=2 it returns only the top two rows and constructs
no Others row at all (its own comments notwithstanding). -/
theorem executor_apply_top_n_drops_others :
    execApplyTopN
        ⟨["category", "value"], [DType.tStr, DType.tNum],
         [[Cell.str "A", Cell.num 55], [Cell.str "B", Cell.num 67],
          [Cell.str "C", Cell.num 62]]⟩ "category" 2 true
      = Except.ok
          ⟨["category", "value"], [DType.tStr, DType.tNum],
           [[Cell.str "B", Cell.num 67], [Cell.str "C", Cell.num 62]]⟩ := by decide

set_option maxRecDepth 100000 in
/-- C8: the claim says every progressive query applies the point budget
`ceil(base_limit * (0.2 + 0.8 * zoom_level))` to its result.  The code
refutes it: `execute_progressive_query` computes that budget and never uses
it.  At zoom 0 on a pie chart the claimed budget is `ceil(20 * 0.2) = 4`,
yet a dataset of 30 one-row string-labelled groups (x is Utf8, y is
Float64, so the Others vstack succeeds) comes back with 21 points (Top-20
plus Others from the delegated aggregated query). -/
theorem progressive_query_ignores_zoom_budget :
    ZoomContext.calculatePointLimit ⟨0, none, none, none⟩ 20 = 4 ∧
    (executeProgressiveQuery (fun q => q)
        { chartType := .pie, xField := "x", yField := "y", aggregation := .sum,
          groupBy := none, sortBy := .none, sortOrder := .none, title := "t", filters := [] }
        0 none none
        ⟨["x", "y"], [DType.tStr, DType.tNum],
         (List.range 30).map (fun i => [Cell.str (toString i), Cell.num 1])⟩).map
      (fun c => c.metadata.returnedPoints) = Except.ok 21 ∧
    4 < 21 := by
  refine ⟨by decide, by decide, by decide⟩

/-- C9 counterexample: the claim assigns tier Low only when the estimated
unique count is below 10, Medium from 10 up to 100.  The code classifies a
non-numeric column with exactly 10 unique values (total 10 rows, so the
count is exact) as Low, not the Medium the claim requires. -/
theorem cardinality_tier_at_ten_counterexample :
    (CardinalityInfo.estimate (fun q => q) "c" DType.tStr
        ((List.range 10).map (fun i => Cell.str (toString i))) 10).uniqueCount = 10 ∧
    (CardinalityInfo.estimate (fun q => q) "c" DType.tStr
        ((List.range 10).map (fun i => Cell.str (toString i))) 10).cardinalityLevel
      = CardinalityLevel.low ∧
    CardinalityLevel.low ≠ CardinalityLevel.medium := by
  refine ⟨by decide, by decide, by decide⟩

/-- C2: whenever `apply_top_n_with_others` actually applies an Others bucket
(it returns `has_others = true`), the Others row's value plus the sum of the
kept top-N values equals the total aggregated sum over all input groups.
The Others row is always the appended last row; values are read from the
`"value"` column (index 1, forced by the `df!`/`vstack` schema checks). -/
theorem top_n_others_conservation (d : DFrame) (n : ℕ) (xf : String) (res : DFrame)
    (h : applyTopNWithOthers d n xf true = Except.ok (res, true)) :
    cellQD (getCell (res.rows.getLastD []) 1) + rowsValueSum res.rows.dropLast 1
      = rowsValueSum d.rows 1 := by
  unfold applyTopNWithOthers at h
  split at h
  · -- the `"value"` column was not found: both branches fail to be `.ok`
    dsimp only at h
    split at h
    · simp [pure, Except.pure] at h
    · simp [throw, throwThe, MonadExceptOf.throw] at h
  · rename_i vi hvi
    split at h
    case isFalse hco => exact absurd rfl hco
    -- the hoisted duplicate-column test
    split at h
    · -- xf = "value": every outcome is an error or carries `false`
      dsimp only at h
      split at h
      · simp [pure, Except.pure] at h
      · obtain ⟨topNSum, htop, h⟩ := except_bind_ok h
        obtain ⟨totalSum, htotal, h⟩ := except_bind_ok h
        split at h
        · simp [throw, throwThe, MonadExceptOf.throw] at h
        · simp [pure, Except.pure] at h
    · rename_i hxf
      -- the hoisted vstack schema test
      split at h
      · -- mismatched schema: again no `.ok (_, true)` outcome
        dsimp only at h
        split at h
        · simp [pure, Except.pure] at h
        · obtain ⟨topNSum, htop, h⟩ := except_bind_ok h
          obtain ⟨totalSum, htotal, h⟩ := except_bind_ok h
          split at h
          · simp [throw, throwThe, MonadExceptOf.throw] at h
          · simp [pure, Except.pure] at h
      · rename_i hcols
        dsimp only at h
        split at h
        · -- too few groups: `(d, false)` cannot equal `(res, true)`
          simp [pure, Except.pure] at h
        · obtain ⟨topNSum, htop, h⟩ := except_bind_ok h
          obtain ⟨totalSum, htotal, h⟩ := except_bind_ok h
          split at h
          · -- a positive Others sum: the appended-row branch
            simp only [pure, Except.pure, Except.ok.injEq, Prod.mk.injEq] at h
            obtain ⟨hres, -⟩ := h
            have hcols' : d.cols = [xf, "value"] := not_not.mp (not_or.mp hcols).1
            -- the value column is at index 1
            have hvi1 : vi = 1 := by
              rw [DFrame.colIdx, hcols'] at hvi
              simp only [List.findIdx?_cons] at hvi
              rw [if_neg (by simpa using hxf)] at hvi
              simp at hvi
              omega
            subst hvi1
            subst hres
            -- unpack the appended Others row
            simp only [List.getLastD_concat, List.dropLast_concat]
            have hlast : cellQD (getCell [Cell.str "Others", Cell.num (totalSum - topNSum)] 1)
                = totalSum - topNSum := rfl
            rw [hlast]
            -- the kept rows sum to topNSum
            have htop' : rowsValueSum ((sortRows d.rows 1 true).take n) 1 = topNSum := by
              have hs := cellSumQ_eq _ _ htop
              rw [rowsValueSum, ← hs, List.map_map]
              rfl
            -- all groups sum to totalSum, via the sorting permutation
            have htotal' : rowsValueSum d.rows 1 = totalSum := by
              have hs := cellSumQ_eq _ _ htotal
              have hperm : ((sortRows d.rows 1 true).map (fun r => cellQD (getCell r 1))).Perm
                  (d.rows.map (fun r => cellQD (getCell r 1))) :=
                (sortRows_perm d.rows 1 true).map _
              rw [rowsValueSum, ← hperm.sum_eq, ← hs, List.map_map]
              rfl
            rw [htop', htotal']
            ring
          · simp [pure, Except.pure] at h

/-- C2 witness: the conservation law at the concrete aggregated groups
A=55, B=67, C=62 with N=2: Others carries 55 and 55 + (67 + 62) is the
total 184. -/
theorem top_n_others_conservation_witness :
    cellQD (getCell (([[Cell.str "B", Cell.num 67], [Cell.str "C", Cell.num 62],
        [Cell.str "Others", Cell.num 55]] : List (List Cell)).getLastD []) 1)
      + rowsValueSum ([[Cell.str "B", Cell.num 67], [Cell.str "C", Cell.num 62],
          [Cell.str "Others", Cell.num 55]] : List (List Cell)).dropLast 1
      = rowsValueSum ([[Cell.str "A", Cell.num 55], [Cell.str "B", Cell.num 67],
          [Cell.str "C", Cell.num 62]] : List (List Cell)) 1 :=
  top_n_others_conservation
    ⟨["category", "value"], [DType.tStr, DType.tNum],
     [[Cell.str "A", Cell.num 55], [Cell.str "B", Cell.num 67], [Cell.str "C", Cell.num 62]]⟩
    2 "category"
    ⟨["category", "value"], [DType.tStr, DType.tNum],
     [[Cell.str "B", Cell.num 67], [Cell.str "C", Cell.num 62],
      [Cell.str "Others", Cell.num 55]]⟩
    (by decide)

/-- C5: a blocked `ExecutionPlan` has an empty transformation list and
`is_safe = false`; `PlanExecutor::execute` refuses any unsafe plan with an
error surfacing the blocking reason (before touching any transformation, on
any dataset); and `QueryPlanner::plan` only ever returns safe plans, so
blocked construction is the sole source of unsafe plans. -/
theorem blocked_plans_refused :
    (∀ (reason : String) (rowCount : ℕ),
      (ExecutionPlan.blocked reason rowCount).transformations = [] ∧
      (ExecutionPlan.blocked reason rowCount).isSafe = false) ∧
    (∀ (plan : ExecutionPlan) (df : DFrame), plan.isSafe = false →
      planExecutorExecute plan df
        = Except.error (DataError.parseError
            (plan.blockingReason.getD "Query blocked for safety"))) ∧
    (∀ (lnApprox : ℚ → ℚ) (zoomContext : ZoomContext) (df : DFrame)
      (spec : VisualizationSpec) (plan : ExecutionPlan),
      plannerPlan lnApprox zoomContext df spec = Except.ok plan → plan.isSafe = true) := by
  refine ⟨fun reason rowCount => ⟨rfl, rfl⟩, ?_, ?_⟩
  · intro plan df hblocked
    unfold planExecutorExecute
    rw [hblocked]
    simp [throw, throwThe, MonadExceptOf.throw]
  · intro lnApprox zoomContext df spec plan h
    unfold plannerPlan at h
    dsimp only at h
    split at h
    · simp [throw, throwThe, MonadExceptOf.throw] at h
    · split at h
      · simp [throw, throwThe, MonadExceptOf.throw] at h
      · simp only [bind, Except.bind, pure, Except.pure, Except.ok.injEq] at h
        rw [← h]

/-- C7: every successful table query returns at most
`min(requested_page_size, 1000)` rows, and the clamped page size is the one
reported in the response. -/
theorem table_query_rows_capped (columns : List String) (page pageSize : ℕ)
    (sortColumn : Option String) (sortDesc : Bool) (filters : List FilterSpec)
    (df : DFrame) (t : TableData)
    (h : executeTableQuery columns page pageSize sortColumn sortDesc filters df
      = TableOutcome.ok t) :
    t.rows.length ≤ min pageSize 1000 ∧ t.pageSize = min pageSize 1000 := by
  unfold executeTableQuery at h
  dsimp only at h
  split at h
  · simp at h
  · split at h
    · simp at h
    · rename_i sdf hsort
      split at h
      · simp at h
      · rename_i selected hsel
        split at h
        · simp at h
        · simp only [TableOutcome.ok.injEq] at h
          subst h
          refine ⟨?_, rfl⟩
          -- the selected rows are a take of at most the clamped page size
          have hsel' : selected.length
              ≤ ((sdf.rows.drop (page * min pageSize 1000)).take (min pageSize 1000)).length := by
            split at hsel
            · simp only [Except.ok.injEq] at hsel
              rw [← hsel]
            · rw [selectColumns_length hsel]
          calc selected.length
              ≤ ((sdf.rows.drop (page * min pageSize 1000)).take (min pageSize 1000)).length :=
                hsel'
            _ ≤ min pageSize 1000 := by
                rw [List.length_take]
                omega

/-- C5 witness: a concrete blocked plan has no transformations and the
executor refuses it with the blocking reason. -/
theorem blocked_plans_refused_witness :
    (ExecutionPlan.blocked "Dataset too large" 5).transformations = [] ∧
    planExecutorExecute (ExecutionPlan.blocked "Dataset too large" 5)
        ⟨["a"], [DType.tNum], [[Cell.num 1]]⟩
      = Except.error (DataError.parseError "Dataset too large") :=
  ⟨(blocked_plans_refused.1 "Dataset too large" 5).1,
   blocked_plans_refused.2.1 (ExecutionPlan.blocked "Dataset too large" 5)
     ⟨["a"], [DType.tNum], [[Cell.num 1]]⟩ rfl⟩

/-- C7 witness: the spec's own scenario, a requested page size of 5000 is
clamped to 1000 and reported as such. -/
theorem table_query_rows_capped_witness :
    ([[Cell.num 1], [Cell.num 2]] : List (List Cell)).length ≤ min 5000 1000 ∧
    (1000 : ℕ) = min 5000 1000 :=
  table_query_rows_capped [] 0 5000 none false []
    ⟨["a"], [DType.tNum], [[Cell.num 1], [Cell.num 2]]⟩
    ⟨[[Cell.num 1], [Cell.num 2]], 2, 0, 1000, 1, none⟩ (by decide)

/-- C1: every plan produced by `QueryPlanner::plan` ends with
`Limit(min(policy.max_points, 50,000))` as its final transformation, and
every chart query that returns at all returns at most 50,000 points —
`execute_visualization_query` caps its collected result with
`limit(MAX_VISUAL_POINTS)`, and the progressive query inherits the cap by
delegation. -/
theorem plan_final_limit_and_point_cap :
    (∀ (lnApprox : ℚ → ℚ) (zoomContext : ZoomContext) (df : DFrame)
        (spec : VisualizationSpec) (plan : ExecutionPlan),
      plannerPlan lnApprox zoomContext df spec = Except.ok plan →
      plan.transformations.getLast?
        = some (Transformation.limit (min plan.safetyConfig.maxPoints 50000))) ∧
    (∀ (lnApprox : ℚ → ℚ) (spec : VisualizationSpec) (df : DFrame) (c : ChartData),
      executeVisualizationQuery lnApprox spec df = Except.ok c →
      c.metadata.returnedPoints ≤ 50000) ∧
    (∀ (lnApprox : ℚ → ℚ) (spec : VisualizationSpec) (zoomLevel : ℚ)
        (rangeStart rangeEnd : Option ℚ) (df : DFrame) (c : ChartData),
      executeProgressiveQuery lnApprox spec zoomLevel rangeStart rangeEnd df = Except.ok c →
      c.metadata.returnedPoints ≤ 50000) := by
  have hvis : ∀ (lnApprox : ℚ → ℚ) (spec : VisualizationSpec) (df : DFrame) (c : ChartData),
      executeVisualizationQuery lnApprox spec df = Except.ok c →
      c.metadata.returnedPoints ≤ 50000 := by
    intro lnApprox spec df c h
    unfold executeVisualizationQuery at h
    dsimp only at h
    split at h
    · simp [throw, throwThe, MonadExceptOf.throw] at h
    · simp [throw, throwThe, MonadExceptOf.throw] at h
    · obtain ⟨filtered, -, h⟩ := except_bind_ok h
      obtain ⟨aggDf, -, h⟩ := except_bind_ok h
      split at h
      · -- the Top-N branch
        obtain ⟨tp, -, h⟩ := except_bind_ok h
        obtain ⟨topDf, hasOthers⟩ := tp
        dsimp only at h
        obtain ⟨y, -, h⟩ := except_bind_ok h
        obtain ⟨sortedDf, -, h⟩ := except_bind_ok h
        obtain ⟨lp, -, h⟩ := except_bind_ok h
        simp only [pure, Except.pure, Except.ok.injEq] at h
        rw [← h]
        simp only [DFrame.height, MAX_VISUAL_POINTS, List.length_take]
        omega
      · -- the aggregation-reduced branch
        split at h
        · obtain ⟨y, -, h⟩ := except_bind_ok h
          obtain ⟨sortedDf, -, h⟩ := except_bind_ok h
          obtain ⟨lp, -, h⟩ := except_bind_ok h
          simp only [pure, Except.pure, Except.ok.injEq] at h
          rw [← h]
          simp only [DFrame.height, MAX_VISUAL_POINTS, List.length_take]
          omega
        · obtain ⟨y, -, h⟩ := except_bind_ok h
          obtain ⟨sortedDf, -, h⟩ := except_bind_ok h
          obtain ⟨lp, -, h⟩ := except_bind_ok h
          simp only [pure, Except.pure, Except.ok.injEq] at h
          rw [← h]
          simp only [DFrame.height, MAX_VISUAL_POINTS, List.length_take]
          omega
  refine ⟨?_, hvis, ?_⟩
  · intro lnApprox zoomContext df spec plan h
    unfold plannerPlan at h
    dsimp only at h
    split at h
    · simp [throw, throwThe, MonadExceptOf.throw] at h
    · split at h
      · simp [throw, throwThe, MonadExceptOf.throw] at h
      · simp only [bind, Except.bind, pure, Except.pure, Except.ok.injEq] at h
        rw [← h]
        simp [MAX_VISUAL_POINTS, List.getLast?_concat]
  · intro lnApprox spec zoomLevel rangeStart rangeEnd df c h
    unfold executeProgressiveQuery at h
    dsimp only at h
    exact hvis _ _ _ _ h

/-- C1 witness: on a concrete one-row bar-chart query, the produced plan
ends in the absolute limit and the returned point count is within the
ceiling. -/
theorem plan_final_limit_and_point_cap_witness :
    fixturePlan.transformations.getLast?
      = some (Transformation.limit (min fixturePlan.safetyConfig.maxPoints 50000)) ∧
    fixtureChart.metadata.returnedPoints ≤ 50000 :=
  ⟨plan_final_limit_and_point_cap.1 (fun q => q) ZoomContext.defaultView fixtureDF
      fixtureSpec fixturePlan (by rfl),
   plan_final_limit_and_point_cap.2.1 (fun q => q) fixtureSpec fixtureDF
      fixtureChart (by rfl)⟩

/-- C9 (amended): the estimator's tier is Low when the estimated unique
count is at most 10 (the claim said "below 10"; the code and its inclusive
bound refute that, see the counterexample), Medium when at most 100, High
when at most 1000, VeryHigh above 1000; numeric non-datetime columns are
always Continuous regardless of unique count; and for `total_rows ≤ 10,000`
the unique count used is the exact distinct-value count. -/
theorem cardinality_tier_thresholds (lnApprox : ℚ → ℚ) (name : String) (dtype : DType)
    (cells : List Cell) (totalRows : ℕ) (info : CardinalityInfo)
    (hinfo : CardinalityInfo.estimate lnApprox name dtype cells totalRows = info) :
    (dtype = DType.tNum → info.cardinalityLevel = CardinalityLevel.continuous) ∧
    (dtype ≠ DType.tNum → info.uniqueCount ≤ 10 →
      info.cardinalityLevel = CardinalityLevel.low) ∧
    (dtype ≠ DType.tNum → 10 < info.uniqueCount → info.uniqueCount ≤ 100 →
      info.cardinalityLevel = CardinalityLevel.medium) ∧
    (dtype ≠ DType.tNum → 100 < info.uniqueCount → info.uniqueCount ≤ 1000 →
      info.cardinalityLevel = CardinalityLevel.high) ∧
    (dtype ≠ DType.tNum → 1000 < info.uniqueCount →
      info.cardinalityLevel = CardinalityLevel.veryHigh) ∧
    (totalRows ≤ 10000 → info.uniqueCount = (firstOccur cells).length) := by
  subst hinfo
  have hexact : totalRows ≤ 10000 →
      (CardinalityInfo.estimate lnApprox name dtype cells totalRows).uniqueCount
        = (firstOccur cells).length := by
    intro hle
    unfold CardinalityInfo.estimate
    have hs : ¬ totalRows > min 10000 totalRows := by omega
    simp only [if_neg hs]
  cases dtype <;>
    refine ⟨?_, ?_, ?_, ?_, ?_, hexact⟩ <;>
    intro hdt <;>
    first
      | (exact absurd rfl hdt)
      | (exact absurd hdt (by decide))
      | (intro h1 h2
         unfold CardinalityInfo.estimate at h1 h2 ⊢
         simp only [HIGH_CARDINALITY_THRESHOLD] at h1 h2 ⊢
         split_ifs at h1 h2 ⊢ <;> first | rfl | omega | simp_all)
      | (intro h1
         unfold CardinalityInfo.estimate at h1 ⊢
         simp only [HIGH_CARDINALITY_THRESHOLD] at h1 ⊢
         split_ifs at h1 ⊢ <;> first | rfl | omega | simp_all)
      | (unfold CardinalityInfo.estimate
         simp)

/-- C9 witness: a two-value string column of a two-row dataset is tier Low
and its unique count is the exact count 2. -/
theorem cardinality_tier_thresholds_witness :
    (CardinalityInfo.estimate (fun q => q) "c" DType.tStr
        [Cell.str "a", Cell.str "b"] 2).cardinalityLevel = CardinalityLevel.low ∧
    (CardinalityInfo.estimate (fun q => q) "c" DType.tStr
        [Cell.str "a", Cell.str "b"] 2).uniqueCount
      = (firstOccur [Cell.str "a", Cell.str "b"]).length := by
  have h := cardinality_tier_thresholds (fun q => q) "c" DType.tStr
    [Cell.str "a", Cell.str "b"] 2 _ rfl
  exact ⟨h.2.1 (by decide) (by decide), h.2.2.2.2.2 (by decide)⟩

/-- C4: each of the four sampling strategies is a pure function of its
inputs — two invocations on equal `(data, seed, target_size)` (the seed and
target live in the config, the stratification key set in its own argument)
return identical row sets in identical order.  Determinism holds because
the embedded pipelines read no state beyond these inputs, mirroring the
source's seeded, clock-free expressions. -/
theorem sampling_strategies_deterministic
    (cfg cfg' : SamplingConfig) (df df' : DFrame) (totalRows totalRows' : ℕ)
    (keyColumns keyColumns' : List String)
    (hcfg : cfg = cfg') (hdf : df = df') (htot : totalRows = totalRows')
    (hkey : keyColumns = keyColumns') :
    reservoirSample cfg df totalRows = reservoirSample cfg' df' totalRows' ∧
    stratifiedSample cfg df = stratifiedSample cfg' df' ∧
    systematicSample cfg df totalRows = systematicSample cfg' df' totalRows' ∧
    hashSample cfg keyColumns df = hashSample cfg' keyColumns' df' := by
  subst hcfg
  subst hdf
  subst htot
  subst hkey
  exact ⟨rfl, rfl, rfl, rfl⟩

/-- C4 witness: the determinism statement applied at a concrete dataset,
seed and target. -/
theorem sampling_strategies_deterministic_witness :
    reservoirSample SamplingConfig.default fixtureDF 1
      = reservoirSample SamplingConfig.default fixtureDF 1 ∧
    stratifiedSample SamplingConfig.default fixtureDF
      = stratifiedSample SamplingConfig.default fixtureDF ∧
    systematicSample SamplingConfig.default fixtureDF 1
      = systematicSample SamplingConfig.default fixtureDF 1 ∧
    hashSample SamplingConfig.default ["x"] fixtureDF
      = hashSample SamplingConfig.default ["x"] fixtureDF :=
  sampling_strategies_deterministic SamplingConfig.default SamplingConfig.default
    fixtureDF fixtureDF 1 1 ["x"] ["x"] rfl rfl rfl rfl

/-- When no score wraps past the prime, the reservoir pipeline selects
exactly the first `targetSize` rows: the scores `(i * seed) % p` are then
monotone in the row index, so the score sort fixes the enumeration, the cut
keeps the leading rows, and the index re-sort is the identity. -/
theorem reservoirSelect_takes_leading_rows (rows : List (List Cell)) (targetSize seed : ℕ)
    (hbound : (rows.length - 1) * seed < RESERVOIR_PRIME) :
    reservoirSelect rows targetSize seed = rows.take targetSize := by
  unfold reservoirSelect
  dsimp only
  have hkey : ∀ x ∈ rows.enum, (x : ℕ × List Cell).1 * seed % RESERVOIR_PRIME
      = x.1 * seed := by
    intro x hx
    apply Nat.mod_eq_of_lt
    have hlt : x.1 < rows.length := by
      have := fst_lt_of_mem_enumFrom (l := rows) (n := 0)
        (by rw [← List.enum_eq_enumFrom]; exact hx)
      omega
    calc x.1 * seed ≤ (rows.length - 1) * seed := Nat.mul_le_mul_right seed (by omega)
      _ < RESERVOIR_PRIME := hbound
  have hp1 : List.Pairwise (fun a b : ℕ × List Cell => a.1 < b.1) rows.enum := by
    rw [List.enum_eq_enumFrom]
    exact pairwise_fst_lt_enumFrom rows 0
  have hsorted : List.Pairwise
      (fun a b : ℕ × List Cell =>
        decide (a.1 * seed % RESERVOIR_PRIME ≤ b.1 * seed % RESERVOIR_PRIME) = true)
      rows.enum := by
    refine hp1.imp_of_mem ?_
    intro a b ha hb hab
    rw [decide_eq_true_eq, hkey a ha, hkey b hb]
    exact Nat.mul_le_mul_right seed (Nat.le_of_lt hab)
  rw [insertionSortB_of_sorted hsorted]
  have htake : List.Pairwise (fun a b : ℕ × List Cell => decide (a.1 ≤ b.1) = true)
      (rows.enum.take targetSize) := by
    refine List.Pairwise.sublist (List.take_sublist _ _) ?_
    exact hp1.imp (fun hab => by rw [decide_eq_true_eq]; exact Nat.le_of_lt hab)
  rw [insertionSortB_of_sorted htake]
  rw [List.enum_eq_enumFrom, List.map_take, List.enumFrom_map_snd]

/-- C10: whenever `total_rows > target_size` and
`(total_rows - 1) * seed < 1,000,000,007` (for instance any dataset under
roughly 23.8 million rows at the default seed 42), `ReservoirSampler::sample`
returns exactly the first `target_size` rows in original order: the score
`(row_index * seed) mod 1,000,000,007` never wraps, so it is monotone in the
row index and sorting by it selects a prefix. -/
theorem reservoir_sample_takes_leading_rows (cfg : SamplingConfig) (df : DFrame) (totalRows : ℕ)
    (hlen : df.rows.length = totalRows) (hgt : cfg.targetSize < totalRows)
    (hbound : (totalRows - 1) * cfg.seed < 1000000007) :
    (reservoirSample cfg df totalRows).data.rows = df.rows.take cfg.targetSize ∧
    (reservoirSample cfg df totalRows).data.rows.length = cfg.targetSize := by
  have hnot : ¬ totalRows ≤ cfg.targetSize := by omega
  have hsel : reservoirSelect df.rows cfg.targetSize cfg.seed = df.rows.take cfg.targetSize :=
    reservoirSelect_takes_leading_rows df.rows cfg.targetSize cfg.seed (by rw [hlen]; exact hbound)
  unfold reservoirSample
  rw [if_neg hnot]
  dsimp only
  refine ⟨hsel, ?_⟩
  rw [hsel, List.length_take]
  omega

/-- C10 witness: four rows, target 2, seed 42 — the bound `3 * 42 < p`
holds and the sample is the first two rows in order. -/
theorem reservoir_sample_takes_leading_rows_witness :
    (reservoirSample { SamplingConfig.default with targetSize := 2 }
        ⟨["v"], [DType.tNum],
         [[Cell.num 10], [Cell.num 20], [Cell.num 30], [Cell.num 40]]⟩ 4).data.rows
      = ([[Cell.num 10], [Cell.num 20], [Cell.num 30], [Cell.num 40]] :
          List (List Cell)).take 2 :=
  (reservoir_sample_takes_leading_rows { SamplingConfig.default with targetSize := 2 }
    ⟨["v"], [DType.tNum], [[Cell.num 10], [Cell.num 20], [Cell.num 30], [Cell.num 40]]⟩ 4
    (by decide) (by decide) (by decide)).1

end

end Insyte
